import Mathlib

/-!
# humidity-detector: a shallow embedding of `src/main.cpp`

The firmware samples a resistive soil-moisture probe, formats a report,
pushes it over WiFi to an HTTP relay and deep-sleeps.  This file embeds the
functions of `src/main.cpp` as Lean definitions and proves properties of them.

Conventions of the embedding:

* `int` / `long` are 32 bits wide on the target (ESP8266); they are modelled
  as `Int` and every arithmetic result is passed through `wrap32`.
* `unsigned long` is modelled as `Nat` and reduced with `% 2 ^ 32`.
* A byte (`char`, `uint8_t`) is a `Fin 256`.
* Calls into the board support libraries whose results the program cannot
  predict (`WiFi.status()`, `millis()`, `WiFi.scanNetworks()`,
  `timeClient.update()`, `http.GET()`, `analogRead`) are answered by an
  environment of oracles indexed by the number of the call.
-/

namespace HumidityDetector

/-! ## Machine integers -/

/-- Two's-complement reduction of an integer to the 32-bit `int`/`long` range. -/
def wrap32 (x : Int) : Int := (x + 2147483648) % 4294967296 - 2147483648

/-- The value is representable as a 32-bit `int`/`long`. -/
def int32 (x : Int) : Prop := -2147483648 ≤ x ∧ x ≤ 2147483647

instance (x : Int) : Decidable (int32 x) := by unfold int32; infer_instance

/-- Reduction of a natural number to the 32-bit `unsigned long` range. -/
def wrapU32 (x : Nat) : Nat := x % 4294967296

/-! ## Constants of `main.cpp` -/

/-- Line 25: `const int ADC_DRY = 1024;` -/
def ADC_DRY : Int := 1024
/-- Line 26: `const int ADC_WET = 423;` -/
def ADC_WET : Int := 423
/-- Line 29: `#define MAX_WIFI_ATTEMPTS 5` -/
def MAX_WIFI_ATTEMPTS : Int := 5
/-- Line 30: `#define WIFI_TIMEOUT 15000` -/
def WIFI_TIMEOUT : Nat := 15000
/-- Line 31: `#define RECONNECT_DELAY 5000` -/
def RECONNECT_DELAY : Nat := 5000

/-! ## Soil moisture: `map` and `constrain` -/

/-- The Arduino library function
`long map(long x, long in_min, long in_max, long out_min, long out_max)`.
It is not part of `main.cpp`; two implementations are in circulation and the
flag `roundHalf` chooses between them:

* `roundHalf = false`, the Arduino reference:
  `(x - in_min) * (out_max - out_min) / (in_max - in_min) + out_min`;
* `roundHalf = true`, the ESP8266 core:
  `(delta * dividend + (divisor / 2)) / divisor + out_min`.

`/` is C division (truncation towards zero), every operation is on 32-bit
`long`. -/
def map (roundHalf : Bool) (x in_min in_max out_min out_max : Int) : Int :=
  let dividend := wrap32 (out_max - out_min)
  let divisor := wrap32 (in_max - in_min)
  let delta := wrap32 (x - in_min)
  let num :=
    if roundHalf then wrap32 (wrap32 (delta * dividend) + divisor.tdiv 2)
    else wrap32 (delta * dividend)
  wrap32 (wrap32 (num.tdiv divisor) + out_min)

/-- No intermediate result of `map` leaves the 32-bit range. -/
def mapFits32 (roundHalf : Bool) (x in_min in_max out_min out_max : Int) : Prop :=
  int32 (out_max - out_min) ∧ int32 (in_max - in_min) ∧ int32 (x - in_min) ∧
  int32 ((x - in_min) * (out_max - out_min)) ∧
  (roundHalf = true →
    int32 ((x - in_min) * (out_max - out_min) + (in_max - in_min).tdiv 2)) ∧
  int32 (((if roundHalf then
            (x - in_min) * (out_max - out_min) + (in_max - in_min).tdiv 2
          else (x - in_min) * (out_max - out_min)).tdiv (in_max - in_min)) + out_min)

instance (b : Bool) (x a c d e : Int) : Decidable (mapFits32 b x a c d e) := by
  unfold mapFits32; infer_instance

/-- The Arduino macro
`constrain(amt,low,high) ((amt)<(low)?(low):((amt)>(high)?(high):(amt)))`. -/
def constrain (amt low high : Int) : Int :=
  if amt < low then low else if amt > high then high else amt

/-- Lines 120-121 of `sampleAndReportMoisture`:
`int moisturePercent = map(raw, ADC_DRY, ADC_WET, 0, 100);`
`moisturePercent = constrain(moisturePercent, 0, 100);` -/
def moisturePercent (roundHalf : Bool) (raw : Int) : Int :=
  constrain (map roundHalf raw ADC_DRY ADC_WET 0 100) 0 100

/-- The domain of raw readings the sampler is specified on: the ADC range
`0..1024`, or any `int` on which `map` does not overflow. -/
def rawReading (roundHalf : Bool) (r : Int) : Prop :=
  (0 ≤ r ∧ r ≤ 1024) ∨ mapFits32 roundHalf r ADC_DRY ADC_WET 0 100

instance (b : Bool) (r : Int) : Decidable (rawReading b r) := by
  unfold rawReading; infer_instance

/-! ## Arduino `String` -/

/-- A byte: `char` / `uint8_t`. -/
abbrev Byte := Fin 256

/-- An Arduino `String`: a sequence of bytes. -/
abbrev Str := List Byte

/-- The bytes of a string literal of the source file (UTF-8, as the compiler
stores it). -/
def lit (s : String) : Str :=
  s.data.flatMap (fun c => (String.utf8EncodeChar c).map (fun b => b.val))

/-- The single byte of a character literal such as `':'`. -/
def chr (c : Char) : Byte := Fin.ofNat c.toNat

/-- The `String(int)` constructor: decimal digits, with a leading `-` for a
negative value. -/
def ofInt (n : Int) : Str := lit (toString n)

/-- Member `String::charAt`: the byte at index `i`, or 0 past the end. -/
def charAt (s : Str) (i : Nat) : Byte := s.getD i 0

/-- Member `String::substring(left, right)`: the bytes at indices
`left .. right - 1`; the bounds are swapped when `left > right` and `right`
is cut at the length. -/
def substring (s : Str) (left right : Nat) : Str :=
  let l := if left > right then right else left
  let r := if left > right then left else right
  (s.take r).drop l

/-- The C library `isalnum` in the "C" locale: ASCII letters and digits. -/
def isalnum (c : Byte) : Bool :=
  (48 ≤ c.val && c.val ≤ 57) || (65 ≤ c.val && c.val ≤ 90) || (97 ≤ c.val && c.val ≤ 122)

/-- The C library `isspace` in the "C" locale. -/
def isspace (c : Byte) : Bool := c.val = 32 || (9 ≤ c.val && c.val ≤ 13)

/-- Conversion of an `int` to `char` / `uint8_t`: the low eight bits. -/
def toByte (x : Int) : Byte := Fin.ofNat (x % 256).toNat

/-! ## `urlEncode` (lines 396-425) -/

/-- The body of the `for` loop of `urlEncode` (lines 403-421): what one
character `c = str.charAt(i)` does to `encodedString`. -/
def urlEncodeStep (encodedString : Str) (c : Byte) : Str :=
  if c = chr ' ' then
    encodedString ++ [chr '+']
  else if isalnum c then
    encodedString ++ [c]
  else
    let code1 : Nat :=
      if (c.val &&& 0xf) > 9 then (c.val &&& 0xf) - 10 + (chr 'A').val
      else (c.val &&& 0xf) + (chr '0').val
    let c1 : Nat := (c.val >>> 4) &&& 0xf
    let code0 : Nat := if c1 > 9 then c1 - 10 + (chr 'A').val else c1 + (chr '0').val
    encodedString ++ [chr '%'] ++ [Fin.ofNat code0] ++ [Fin.ofNat code1]

/-- Lines 396-425: `String urlEncode(String str)`; the loop visits the
characters of `str` in order, starting from the empty `encodedString`. -/
def urlEncode (str : Str) : Str := str.foldl urlEncodeStep []

/-! ### The encoding as the specification words it, and the reference decoder -/

/-- Upper-case hexadecimal digit of a value below 16. -/
def hexDigit (n : Nat) : Byte := (lit "0123456789ABCDEF").getD n 0

/-- Value of a hexadecimal digit (either case), if the byte is one. -/
def hexDigitVal (c : Byte) : Option Nat :=
  if 48 ≤ c.val ∧ c.val ≤ 57 then some (c.val - 48)
  else if 65 ≤ c.val ∧ c.val ≤ 70 then some (c.val - 55)
  else if 97 ≤ c.val ∧ c.val ≤ 102 then some (c.val - 87)
  else none

/-- The specification's rule for one byte: an ASCII alphanumeric passes
through, a space becomes `+`, any other byte `b` becomes `%`, the hex digit of
`b >> 4` and the hex digit of `b & 0xF`. -/
def percentEncodeByte (b : Byte) : Str :=
  if isalnum b then [b]
  else if b = chr ' ' then [chr '+']
  else [chr '%', hexDigit (b.val / 16), hexDigit (b.val % 16)]

/-- The reference URL decoder: `+` becomes a space, `%HH` with two hex digits
becomes the byte with hex value `HH`, any other character is itself. -/
def urlDecode : Str → Str
  | [] => []
  | [c] => [if c = chr '+' then chr ' ' else c]
  | [c, d] => [if c = chr '+' then chr ' ' else c, if d = chr '+' then chr ' ' else d]
  | c :: h :: l :: rest =>
    match hexDigitVal h, hexDigitVal l with
    | some hi, some lo =>
      if c = chr '%' then Fin.ofNat (16 * hi + lo) :: urlDecode rest
      else (if c = chr '+' then chr ' ' else c) :: urlDecode (h :: l :: rest)
    | _, _ => (if c = chr '+' then chr ' ' else c) :: urlDecode (h :: l :: rest)

/-! ## The board: statuses, scan results, oracles, observable effects -/

/-- The library enumeration `wl_status_t` returned by `WiFi.status()`. -/
inductive wl_status_t
  | WL_NO_SHIELD
  | WL_IDLE_STATUS
  | WL_NO_SSID_AVAIL
  | WL_SCAN_COMPLETED
  | WL_CONNECTED
  | WL_CONNECT_FAILED
  | WL_CONNECTION_LOST
  | WL_WRONG_PASSWORD
  | WL_DISCONNECTED
  deriving DecidableEq, Repr

open wl_status_t

/-- A six-byte hardware address. -/
structure Bssid where
  b0 : Byte
  b1 : Byte
  b2 : Byte
  b3 : Byte
  b4 : Byte
  b5 : Byte
  deriving DecidableEq, Repr

/-- One entry of a scan: what `WiFi.SSID(i)`, `WiFi.RSSI(i)`, `WiFi.BSSID(i)`
and `WiFi.channel(i)` answer for it. -/
structure ScanEntry where
  SSID : Str
  RSSI : Int
  BSSID : Bssid
  channel : Int
  deriving DecidableEq, Repr

/-- Two upper-case hexadecimal digits, the `%02X` of the library's
`BSSIDstr`. -/
def hex02X (b : Byte) : Str := [hexDigit (b.val / 16), hexDigit (b.val % 16)]

/-- The library's `WiFi.BSSIDstr(i)`: `%02X:%02X:%02X:%02X:%02X:%02X`. -/
def BSSIDstr (m : Bssid) : Str :=
  hex02X m.b0 ++ [chr ':'] ++ hex02X m.b1 ++ [chr ':'] ++ hex02X m.b2 ++ [chr ':'] ++
  hex02X m.b3 ++ [chr ':'] ++ hex02X m.b4 ++ [chr ':'] ++ hex02X m.b5

/-- The fields of `struct tm` that `getFormattedTime` reads. -/
structure Tm where
  tm_sec : Int
  tm_min : Int
  tm_hour : Int
  tm_mday : Int
  tm_mon : Int
  tm_year : Int
  deriving DecidableEq, Repr

/-- The answers of the outside world.  Each oracle is indexed by the number of
earlier calls of the same library function, so consecutive calls may see
different values. -/
structure Env where
  /-- Which implementation of `map` is linked, see `map`. -/
  roundHalf : Bool
  /-- Answers of `WiFi.status()`. -/
  status : Nat → wl_status_t
  /-- Answers of `millis()`. -/
  millis : Nat → Nat
  /-- Results of `WiFi.scanNetworks()`, read through its accessors. -/
  scan : Nat → List ScanEntry
  /-- Answers of `timeClient.update()`. -/
  timeUpdate : Nat → Bool
  /-- Answers of `http.GET()`. -/
  httpGET : Nat → Int
  /-- Answers of `analogRead(SOIL_PIN)`. -/
  analogRead : Nat → Int
  /-- Broken-down time `gmtime` gives for `timeClient.getEpochTime()`. -/
  gmtime : Nat → Tm

/-- Effects the program has on the outside world, in the order they happen.
Writes to the serial console are not recorded. -/
inductive Event
  | delay (ms : Nat)
  | digitalWrite (pin : Nat) (high : Bool)
  | wifiBegin (channel : Int) (bssid : List (Option Byte))
  | send (message : Str)
  | httpGet (url : Str) (code : Int)
  | deepSleep (us : Nat)
  deriving DecidableEq, Repr

/-- The global variables of `main.cpp` (lines 33-36 and 47), the number of
calls made so far to each oracle, and the effects so far. -/
structure World where
  connectionAttempts : Int
  wifiConnectStartTime : Nat
  shouldReconnect : Bool
  lastDisconnectTime : Nat
  lastMoistureSample : Nat
  statusCalls : Nat
  millisCalls : Nat
  scanCalls : Nat
  timeUpdateCalls : Nat
  httpCalls : Nat
  analogCalls : Nat
  gmtimeCalls : Nat
  events : List Event
  deriving DecidableEq, Repr

/-- The state at reset: the initialisers of lines 33-36 and 47. -/
def World.boot : World :=
  { connectionAttempts := 0, wifiConnectStartTime := 0, shouldReconnect := false,
    lastDisconnectTime := 0, lastMoistureSample := 0, statusCalls := 0, millisCalls := 0,
    scanCalls := 0, timeUpdateCalls := 0, httpCalls := 0, analogCalls := 0,
    gmtimeCalls := 0, events := [] }

/-- The WiFi manager's part of the state: attempts made, connect start time,
pending-reconnect flag, last disconnect time. -/
def World.manager (w : World) : Int × Nat × Bool × Nat :=
  (w.connectionAttempts, w.wifiConnectStartTime, w.shouldReconnect, w.lastDisconnectTime)

/-- Record an effect. -/
def emit (ev : Event) (w : World) : World := { w with events := w.events ++ [ev] }

/-- Library call `delay(ms)`. -/
def delay (ms : Nat) (w : World) : World := emit (Event.delay ms) w

/-- Library call `WiFi.status()`. -/
def wifiStatus (e : Env) (w : World) : wl_status_t × World :=
  (e.status w.statusCalls, { w with statusCalls := w.statusCalls + 1 })

/-- Library call `millis()`, an `unsigned long`. -/
def millis (e : Env) (w : World) : Nat × World :=
  (wrapU32 (e.millis w.millisCalls), { w with millisCalls := w.millisCalls + 1 })

/-- Library call `WiFi.scanNetworks()`. -/
def scanNetworks (e : Env) (w : World) : List ScanEntry × World :=
  (e.scan w.scanCalls, { w with scanCalls := w.scanCalls + 1 })

/-- Library call `timeClient.update()`. -/
def timeUpdate (e : Env) (w : World) : Bool × World :=
  (e.timeUpdate w.timeUpdateCalls, { w with timeUpdateCalls := w.timeUpdateCalls + 1 })

/-- Library call `analogRead(SOIL_PIN)`. -/
def analogRead (e : Env) (w : World) : Int × World :=
  (e.analogRead w.analogCalls, { w with analogCalls := w.analogCalls + 1 })

/-- Line 20: `#define LED_PIN 2` -/
def LED_PIN : Nat := 2

/-- Line 12: `const char* ssid = "WIFI";` -/
def ssid : Str := lit "WIFI"
/-- Line 16: `String phoneNumber = "+3NUM";` -/
def phoneNumber : Str := lit "+3NUM"
/-- Line 17: `String apiKey = "XXX";` -/
def apiKey : Str := lit "XXX"

/-! ## WiFi management (lines 150-320) -/

/-- Lines 174-178, the assignments of `onWifiConnect`. -/
def onWifiConnect (w : World) : World :=
  { w with connectionAttempts := 0, wifiConnectStartTime := 0, shouldReconnect := false,
           lastDisconnectTime := 0 }

/-- Lines 189-201, `onWifiDisconnect`. -/
def onWifiDisconnect (e : Env) (w : World) : World :=
  if w.connectionAttempts < MAX_WIFI_ATTEMPTS then
    let (now, w1) := millis e w
    { w1 with shouldReconnect := true, lastDisconnectTime := now }
  else
    w

/-- The body of the `for` loop of `getBestBSSID` (lines 211-221) on the pair
`(bestBSSID, bestRSSI)`. -/
def getBestBSSIDStep (best : Str × Int) (ap : ScanEntry) : Str × Int :=
  if ap.SSID = ssid then
    let currentRSSI := ap.RSSI
    if currentRSSI > best.2 then (BSSIDstr ap.BSSID, currentRSSI) else best
  else best

/-- The value `getBestBSSID` returns for given scan results: the loop of lines
210-222 started from `bestBSSID = ""`, `bestRSSI = -100`. -/
def bestBSSIDOf (results : List ScanEntry) : Str :=
  (results.foldl getBestBSSIDStep ([], -100)).1

/-- Lines 203-232, `String getBestBSSID()`. -/
def getBestBSSID (e : Env) (w : World) : Str × World :=
  let (results, w1) := scanNetworks e w
  (bestBSSIDOf results, w1)

/-- The digit loop of the C library `strtol` in base 16. -/
def strtolDigits : Str → Nat → Nat
  | [], acc => acc
  | c :: rest, acc =>
    match hexDigitVal c with
    | some d => strtolDigits rest (acc * 16 + d)
    | none => acc

/-- The C library `strtol(s, NULL, 16)`: leading white space, an optional
sign, an optional `0x`/`0X`, then hex digits up to the first other character;
the result saturates at the bounds of `long`. -/
def strtol16 (s : Str) : Int :=
  let s1 := s.dropWhile isspace
  let signed : Bool × Str :=
    match s1 with
    | c :: rest =>
      if c = chr '-' then (true, rest) else if c = chr '+' then (false, rest) else (false, s1)
    | [] => (false, s1)
  let s3 : Str :=
    match signed.2 with
    | a :: b :: rest => if a = chr '0' ∧ (b = chr 'x' ∨ b = chr 'X') then rest else signed.2
    | _ => signed.2
  let v := strtolDigits s3 0
  if signed.1 then (if v > 2147483648 then -2147483648 else -(v : Int))
  else (if v > 2147483647 then 2147483647 else (v : Int))

/-- The `for` loop of `convertBSSIDStringToBytes` (lines 239-248) from the
state `(i, byteIndex, start)`, as the list of writes `bssidBytes[index] = value`
it performs, in order.  The first argument bounds the iterations left. -/
def convertBSSIDLoop (bssidStr : Str) : Nat → Nat → Nat → Nat → List (Nat × Byte)
  | 0, _, _, _ => []
  | fuel + 1, i, byteIndex, start =>
    if i ≤ bssidStr.length ∧ byteIndex < 6 then
      if i = bssidStr.length ∨ charAt bssidStr i = chr ':' then
        if i > start then
          let hexPart := substring bssidStr start i
          (byteIndex, toByte (strtol16 hexPart)) ::
            convertBSSIDLoop bssidStr fuel (i + 1) (byteIndex + 1) (i + 1)
        else
          convertBSSIDLoop bssidStr fuel (i + 1) byteIndex (i + 1)
      else
        convertBSSIDLoop bssidStr fuel (i + 1) byteIndex start
    else []

/-- The writes of `convertBSSIDStringToBytes(bssidStr, bssidBytes)`: the loop
runs `i` from 0 while `i <= length`, so `length + 1` iterations suffice. -/
def convertBSSIDWrites (bssidStr : Str) : List (Nat × Byte) :=
  convertBSSIDLoop bssidStr (bssidStr.length + 1) 0 0 0

/-- Lines 234-249, `convertBSSIDStringToBytes`: the output buffer after the
writes.  A cell that was never written holds `none`. -/
def convertBSSIDStringToBytes (bssidStr : Str) (bssidBytes : List (Option Byte)) :
    List (Option Byte) :=
  (convertBSSIDWrites bssidStr).foldl (fun buf wr => buf.set wr.1 (some wr.2)) bssidBytes

/-- Lines 263-270: the channel of the first entry whose `BSSIDstr` equals
`bestBSSID`, or the initial 0. -/
def targetChannelOf (results : List ScanEntry) (bestBSSID : Str) : Int :=
  match results.find? (fun ap => BSSIDstr ap.BSSID = bestBSSID) with
  | some ap => ap.channel
  | none => 0

/-- Lines 251-286, `connectToWiFi`. -/
def connectToWiFi (e : Env) (w : World) : World :=
  let (bestBSSID, w1) := getBestBSSID e w
  if bestBSSID = [] then
    { w1 with connectionAttempts := wrap32 (w1.connectionAttempts + 1) }
  else
    let (results, w2) := scanNetworks e w1
    let targetChannel := targetChannelOf results bestBSSID
    let bssidBytes := convertBSSIDStringToBytes bestBSSID (List.replicate 6 none)
    let w3 := emit (Event.wifiBegin targetChannel bssidBytes) w2
    let w4 := delay 500 w3
    let (now, w5) := millis e w4
    { w5 with wifiConnectStartTime := now,
              connectionAttempts := wrap32 (w5.connectionAttempts + 1) }

/-- Lines 150-172, `initWiFi`: radio configuration and handler registration
have no effect on the modelled state; then `connectToWiFi()`. -/
def initWiFi (e : Env) (w : World) : World := connectToWiFi e w

/-- Lines 288-320, `handleWiFiReconnection`.  The `&&` of line 290 evaluates
`WiFi.status()` first and `millis()` only when the first two conjuncts hold;
the subtraction is on `unsigned long`. -/
def handleWiFiReconnection (e : Env) (w : World) : World :=
  let (st0, w1) := wifiStatus e w
  let timedOut : Bool × World :=
    if st0 ≠ WL_CONNECTED ∧ w1.wifiConnectStartTime > 0 then
      let (now, w2) := millis e w1
      (decide (wrapU32 (now + 4294967296 - w2.wifiConnectStartTime) > WIFI_TIMEOUT), w2)
    else (false, w1)
  if timedOut.1 then
    let (status, w3) := wifiStatus e timedOut.2
    if status = WL_DISCONNECTED ∨ status = WL_IDLE_STATUS ∨ status = WL_NO_SSID_AVAIL then
      let w4 := { w3 with wifiConnectStartTime := 0 }
      if w4.connectionAttempts < MAX_WIFI_ATTEMPTS then
        connectToWiFi e w4
      else
        delay 30000 { w4 with connectionAttempts := 0 }
    else w3
  else
    let w2 := timedOut.2
    let due : Bool × World :=
      if w2.shouldReconnect then
        let (now, w3) := millis e w2
        (decide (wrapU32 (now + 4294967296 - w3.lastDisconnectTime) > RECONNECT_DELAY), w3)
      else (false, w2)
    if due.1 then
      let w4 := { due.2 with shouldReconnect := false }
      let (st1, w5) := wifiStatus e w4
      if st1 ≠ WL_CONNECTED then connectToWiFi e w5 else w5
    else due.2

/-! ## Report, delivery and the boot cycle -/

/-- Two-digit field of `getFormattedTime`: `if (v < 10) formattedTime += "0";`
followed by `String(v)`. -/
def pad2 (v : Int) : Str := (if v < 10 then lit "0" else []) ++ ofInt v

/-- Lines 336-359, `getFormattedTime`, on the broken-down time `ptm`. -/
def formatTm (ptm : Tm) : Str :=
  pad2 ptm.tm_mday ++ lit "/" ++
  (pad2 (wrap32 (ptm.tm_mon + 1)) ++ lit "/") ++
  (ofInt (wrap32 (ptm.tm_year + 1900)) ++ lit " ") ++
  (pad2 ptm.tm_hour ++ lit ":") ++
  (pad2 ptm.tm_min ++ lit ":") ++
  pad2 ptm.tm_sec

/-- Lines 336-359, `String getFormattedTime()`. -/
def getFormattedTime (e : Env) (w : World) : Str × World :=
  (formatTm (e.gmtime w.gmtimeCalls), { w with gmtimeCalls := w.gmtimeCalls + 1 })

/-- Lines 127-130: the report `msg` built from the formatted time, the raw
reading and the percentage. -/
def reportMessage (time : Str) (raw moisturePercent : Int) : Str :=
  lit "💧 Medição humidade solo\n" ++
  (lit "⏰ " ++ time ++ lit "\n") ++
  (lit "📊 Valor bruto: " ++ ofInt raw ++ lit "\n") ++
  (lit "📈 Estimativa: " ++ ofInt moisturePercent ++ lit "%")

/-- Lines 363-394, `sendWhatsAppMessage`: nothing is requested unless
`WiFi.status()` is `WL_CONNECTED`; otherwise one `http.GET()`. -/
def sendWhatsAppMessage (e : Env) (message : Str) (w : World) : World :=
  let w0 := emit (Event.send message) w
  let (st, w1) := wifiStatus e w0
  if st ≠ WL_CONNECTED then w1
  else
    let url := lit "http://api.callmebot.com/whatsapp.php?phone=" ++ phoneNumber ++
      (lit "&text=" ++ urlEncode message) ++ (lit "&apikey=" ++ apiKey)
    let httpResponseCode := e.httpGET w1.httpCalls
    emit (Event.httpGet url httpResponseCode) { w1 with httpCalls := w1.httpCalls + 1 }

/-- Lines 133-138, `for(int i = 0; i < 3 && !sent; i++)`: the first argument
is the number `3 - i` of iterations left, the second is `sent`. -/
def deliveryLoop (e : Env) (msg : Str) : Nat → Bool → World → World
  | 0, _, w => w
  | left + 1, sent, w =>
    if sent then w
    else
      let w1 := sendWhatsAppMessage e msg w
      let w2 := delay 2000 w1
      let (st, w3) := wifiStatus e w2
      deliveryLoop e msg left (decide (st = WL_CONNECTED)) w3

/-- How a run of `setup` ends: `ESP.deepSleep` was called, which stops
execution until the wake-up reset, or `setup` returned to the Arduino core,
which then calls `loop` for ever. -/
inductive Outcome
  | asleep (us : Nat) (w : World)
  | returned (w : World)
  deriving DecidableEq, Repr

/-- Lines 115-146, `sampleAndReportMoisture`. -/
def sampleAndReportMoisture (e : Env) (w : World) : Outcome :=
  let (raw, w1) := analogRead e w
  let percent := moisturePercent e.roundHalf raw
  let (time, w2) := getFormattedTime e w1
  let msg := reportMessage time raw percent
  let w3 := deliveryLoop e msg 3 false w2
  let w4 := emit (Event.digitalWrite LED_PIN false) w3
  Outcome.asleep (3600 * 1000000) (emit (Event.deepSleep (3600 * 1000000)) w4)

/-- Lines 81-86, the wait for the connection: the first argument bounds the
iterations left, the second is `waitCount`. -/
def waitLoop (e : Env) : Nat → Nat → World → World
  | 0, _, w => w
  | fuel + 1, waitCount, w =>
    let (st, w1) := wifiStatus e w
    if st ≠ WL_CONNECTED ∧ waitCount < 30 then waitLoop e fuel (waitCount + 1) (delay 1000 w1)
    else w1

/-- Lines 95-101, the time synchronisation loop: the first argument is the
number `3 - i` of iterations left. -/
def syncLoop (e : Env) : Nat → World → World
  | 0, w => w
  | left + 1, w =>
    let (ok, w1) := timeUpdate e w
    if ok then w1 else syncLoop e left (delay 1000 w1)

/-- Lines 66-87 of `setup`: start-up delay, pins, `initWiFi()` and the wait
for the connection.  The wait loop runs its body at most 30 times, so 31
evaluations of its condition suffice. -/
def setupWait (e : Env) (w : World) : World :=
  let w1 := delay 1000 w
  let w2 := emit (Event.digitalWrite LED_PIN true) w1
  let w3 := initWiFi e w2
  waitLoop e 31 0 w3

/-- The status that the test of line 89, `if (WiFi.status() == WL_CONNECTED)`,
reads. -/
def statusAfterWait (e : Env) (w : World) : wl_status_t :=
  (wifiStatus e (setupWait e w)).1

/-- Lines 65-107, `setup`.  The assignment of line 105 follows a call that
does not return. -/
def setup (e : Env) (w : World) : Outcome :=
  let w4 := setupWait e w
  let (st, w5) := wifiStatus e w4
  if st = WL_CONNECTED then
    let w6 := syncLoop e 3 w5
    sampleAndReportMoisture e w6
  else
    Outcome.returned w5

/-- Lines 109-111, `loop`: `delay(1000);`. -/
def loop (w : World) : World := delay 1000 w

/-- A boot cycle observed until `setup` has ended and `loop` has been called
`n` times: `loop` is only reached when `setup` returns. -/
def bootCycle (e : Env) (n : Nat) : Outcome :=
  match setup e World.boot with
  | Outcome.asleep us w => Outcome.asleep us w
  | Outcome.returned w => Outcome.returned (loop^[n] w)

/-- Number of invocations of `sendWhatsAppMessage` among the effects. -/
def sendCount (evs : List Event) : Nat :=
  evs.countP (fun ev => match ev with | Event.send _ => true | _ => false)

/-- The HTTP response codes received, in order. -/
def httpCodes (evs : List Event) : List Int :=
  evs.filterMap (fun ev => match ev with | Event.httpGet _ c => some c | _ => none)

/-- The deep-sleep durations requested, in order. -/
def sleeps (evs : List Event) : List Nat :=
  evs.filterMap (fun ev => match ev with | Event.deepSleep us => some us | _ => none)

/-- The state in which a run ended. -/
def Outcome.world : Outcome → World
  | Outcome.asleep _ w => w
  | Outcome.returned w => w

/-- The effects recorded in `w1` after those already recorded in `w`. -/
def newEvents (w w1 : World) : List Event := w1.events.drop w.events.length

/-- The status read by the test of line 137 in iteration `k` (1, 2 or 3) of
the delivery loop entered in state `w`: every iteration reads the status
twice, first in `sendWhatsAppMessage` (line 364), then at line 137. -/
def statusAfterAttempt (e : Env) (w : World) (k : Nat) : wl_status_t :=
  e.status (w.statusCalls + 2 * k - 1)

/-! ## Concrete environments used in the examples -/

/-- Link reported connected at every reading, time sync succeeds, the relay
answers 200, the probe reads the wet endpoint, no access point in range. -/
def envUp : Env :=
  { roundHalf := true, status := fun _ => WL_CONNECTED, millis := fun k => 1000 * k,
    scan := fun _ => [], timeUpdate := fun _ => true, httpGET := fun _ => 200,
    analogRead := fun _ => 423, gmtime := fun _ => ⟨5, 4, 3, 2, 0, 126⟩ }

/-- As `envUp`, but the link is never reported connected. -/
def envDown : Env := { envUp with status := fun _ => WL_DISCONNECTED }

/-- As `envUp`, but the link is reported connected at every even reading only
and the relay answers 500. -/
def envFlap : Env :=
  { envUp with
    status := fun k => if k % 2 = 0 then WL_CONNECTED else WL_DISCONNECTED,
    httpGET := fun _ => 500 }

/-- As `envUp`, but the relay answers 500 to every request. -/
def envRelayFails : Env := { envUp with httpGET := fun _ => 500 }

/-- A scan entry of the target network with the given last address byte,
signal strength and channel. -/
def targetAP (last : Byte) (rssi channel : Int) : ScanEntry :=
  { SSID := ssid, RSSI := rssi, BSSID := ⟨0xAA, 0xBB, 0xCC, 0xDD, 0xEE, last⟩,
    channel := channel }

/-- As `envUp`, with one access point of the target network in range, heard
at -100 dBm. -/
def envWeak : Env := { envUp with scan := fun _ => [targetAP 1 (-100) 6] }

/-- A manager state with five attempts made and an attempt in flight since
`millis() = 1000`. -/
def worldExhausted : World :=
  { World.boot with connectionAttempts := 5, wifiConnectStartTime := 1000 }

/-- The link stays down and the clock reads 20000 ms. -/
def envTimeout : Env := { envDown with millis := fun _ => 20000 }

/-! ## Vocabulary for the manager claims -/

/-- The `unsigned long` difference `now - since` that lines 292 and 312
compare with a timeout. -/
def elapsed (now since : Nat) : Nat := wrapU32 (now + 4294967296 - since)

/-- The connections initiated with `WiFi.begin`, in order: channel and address
bytes. -/
def begins (evs : List Event) : List (Int × List (Option Byte)) :=
  evs.filterMap (fun ev => match ev with | Event.wifiBegin c b => some (c, b) | _ => none)

/-- The operations on the manager that follow initialisation: the two event
callbacks and the poll function. -/
inductive ManagerOp
  | onConnected
  | onDisconnected
  | tick
  deriving DecidableEq, Repr

/-- One operation on the manager. -/
def applyOp (e : Env) (w : World) : ManagerOp → World
  | ManagerOp.onConnected => onWifiConnect w
  | ManagerOp.onDisconnected => onWifiDisconnect e w
  | ManagerOp.tick => handleWiFiReconnection e w

/-- The state reached from the boot state by initialisation (`initWiFi`, which
calls `connectToWiFi`) followed by the given operations. -/
def runOps (e : Env) (ops : List ManagerOp) : World :=
  ops.foldl (applyOp e) (initWiFi e World.boot)

/-- A manager state with one attempt made and in flight since 1000 ms, and a
reconnect armed by a disconnect at 2000 ms. -/
def worldArmedInFlight : World :=
  { World.boot with connectionAttempts := 1, wifiConnectStartTime := 1000,
                    shouldReconnect := true, lastDisconnectTime := 2000 }

/-- As `envTimeout`, but every status read is `WL_CONNECT_FAILED`. -/
def envFailed : Env := { envTimeout with status := fun _ => WL_CONNECT_FAILED }

/-- The link stays down, one access point of the target network is in range on
channel 6, and every clock reading is 20 s after the one before. -/
def envStuck : Env :=
  { envDown with scan := fun _ => [targetAP 1 (-40) 6],
                 millis := fun k => 1000 + 20000 * k }

/-- The link stays down, one access point of the target network is in range,
and the clock readings are, in order: start of attempt 1; then for each of
three timed-out polls the poll and the start of the next attempt; a disconnect
at 67000 ms; a fourth timed-out poll and the start of attempt 5; and a poll
1 s later with its two readings, followed by the start of a further attempt. -/
def envOvershoot : Env :=
  { envDown with
    scan := fun _ => [targetAP 1 (-40) 6],
    millis := fun k =>
      [1000, 21000, 22000, 43000, 44000, 65000, 66000, 67000, 87000, 88000,
        89000, 90000, 91000].getD k 0 }

/-- Three timed-out polls, a disconnect event, a fourth timed-out poll, and a
poll that finds the reconnect due. -/
def opsOvershoot : List ManagerOp :=
  [ManagerOp.tick, ManagerOp.tick, ManagerOp.tick, ManagerOp.onDisconnected,
   ManagerOp.tick, ManagerOp.tick]

/-- The bound the manager does keep: the counter stays within `0..6`, and
within `0..5` while a reconnect is armed. -/
def attemptsInv (w : World) : Prop :=
  0 ≤ w.connectionAttempts ∧ w.connectionAttempts ≤ 6 ∧
  (w.shouldReconnect = true → w.connectionAttempts ≤ 5)

/-- Hexadecimal digit of a value below 16, upper-case or lower-case. -/
def hexDigitCase (upper : Bool) (n : Nat) : Byte :=
  if upper then hexDigit n else (lit "0123456789abcdef").getD n 0

/-- Six two-digit groups separated by `:`, from the twelve digit characters. -/
def macText (h0 l0 h1 l1 h2 l2 h3 l3 h4 l4 h5 l5 : Byte) : Str :=
  [h0, l0, chr ':', h1, l1, chr ':', h2, l2, chr ':', h3, l3, chr ':', h4, l4, chr ':',
   h5, l5]

/-- The textual form of a hardware address with upper-case or lower-case
digits; with upper-case digits it is the library's `BSSIDstr`. -/
def bssidText (upper : Bool) (m : Bssid) : Str :=
  macText (hexDigitCase upper (m.b0.val / 16)) (hexDigitCase upper (m.b0.val % 16))
    (hexDigitCase upper (m.b1.val / 16)) (hexDigitCase upper (m.b1.val % 16))
    (hexDigitCase upper (m.b2.val / 16)) (hexDigitCase upper (m.b2.val % 16))
    (hexDigitCase upper (m.b3.val / 16)) (hexDigitCase upper (m.b3.val % 16))
    (hexDigitCase upper (m.b4.val / 16)) (hexDigitCase upper (m.b4.val % 16))
    (hexDigitCase upper (m.b5.val / 16)) (hexDigitCase upper (m.b5.val % 16))

/-- The link is down; the first scan hears the target network's access point
`AA:BB:CC:DD:EE:01` on channel 6, every later scan hears nothing. -/
def envRescan : Env :=
  { envDown with scan := fun k => if k = 0 then [targetAP 1 (-40) 6] else [] }

/-- Number of non-empty groups among the `:`-separated groups of a string. -/
def nonEmptyGroups (s : Str) : Nat :=
  ((s.splitOn (chr ':')).filter (fun g => !g.isEmpty)).length

/-- The conversion loop read on lists: `rest` is the part of the string from
index `i` on, `cur` the characters of the group in progress (those between
`start` and `i`), `k` the value of `byteIndex`. -/
def groupWrites : Str → Str → Nat → List (Nat × Byte)
  | [], cur, k =>
    if k < 6 then (if cur ≠ [] then [(k, toByte (strtol16 cur))] else []) else []
  | c :: t, cur, k =>
    if k < 6 then
      if c = chr ':' then
        if cur ≠ [] then (k, toByte (strtol16 cur)) :: groupWrites t [] (k + 1)
        else groupWrites t [] k
      else groupWrites t (cur ++ [c]) k
    else []

/-- Number of non-empty `:`-separated groups of `cur ++ rest`, for a `cur`
that holds no separator. -/
def groupCount (cur rest : Str) : Nat :=
  (((rest.splitOn (chr ':')).modifyHead (fun g => cur ++ g)).filter
    (fun g => !g.isEmpty)).length

/-- The `for` loop of `convertBSSIDStringToBytes` (lines 239-248) with its
exit made visible: `some writes` when the loop test
`i <= length && byteIndex < 6` fails and the loop ends, `none` when the bound
on the number of evaluations of the test is used up before that. -/
def convertBSSIDRun (bssidStr : Str) : Nat → Nat → Nat → Nat → Option (List (Nat × Byte))
  | 0, _, _, _ => none
  | fuel + 1, i, byteIndex, start =>
    if i ≤ bssidStr.length ∧ byteIndex < 6 then
      if i = bssidStr.length ∨ charAt bssidStr i = chr ':' then
        if i > start then
          let hexPart := substring bssidStr start i
          (convertBSSIDRun bssidStr fuel (i + 1) (byteIndex + 1) (i + 1)).map
            (fun writes => (byteIndex, toByte (strtol16 hexPart)) :: writes)
        else
          convertBSSIDRun bssidStr fuel (i + 1) byteIndex (i + 1)
      else
        convertBSSIDRun bssidStr fuel (i + 1) byteIndex start
    else some []

/-! ## Helper lemmas on machine arithmetic -/

theorem wrap32_of_int32 {x : Int} (h : int32 x) : wrap32 x = x := by
  unfold int32 at h
  unfold wrap32
  omega

/-- Truncating division by a positive literal in terms of floor division. -/
theorem tdiv_601 (a : Int) :
    a.tdiv 601 = if 0 ≤ a then a / 601 else -((-a) / 601) := by
  split
  · rename_i h
    exact Int.tdiv_eq_ediv h (by decide)
  · rename_i h
    have h1 : a = -(-a) := by omega
    rw [h1, Int.neg_tdiv, Int.tdiv_eq_ediv (by omega) (by decide)]
    simp

/-- The value of `map(raw, 1024, 423, 0, 100)` when nothing overflows. -/
theorem map_adc_eq (rh : Bool) (r : Int) (h : mapFits32 rh r ADC_DRY ADC_WET 0 100) :
    map rh r ADC_DRY ADC_WET 0 100 =
      -(((r - 1024) * 100 - (if rh then 300 else 0)).tdiv 601) := by
  obtain ⟨-, -, h3, h4, h5, h6⟩ := h
  have e1 : wrap32 (100 - 0) = 100 := by decide
  have e2 : wrap32 (423 - 1024) = -601 := by decide
  have e3 : (-601 : Int).tdiv 2 = -300 := by decide
  have e4 : ((423 : Int) - 1024) = -601 := by decide
  have e5 : ((100 : Int) - 0) = 100 := by decide
  unfold map
  simp only [ADC_DRY, ADC_WET, e4, e5, e3, Int.add_zero] at h3 h4 h5 h6
  simp only [ADC_DRY, ADC_WET, e1, e2, e3, wrap32_of_int32 h3, Int.add_zero]
  cases rh
  · simp only [Bool.false_eq_true, if_false] at h6 ⊢
    rw [wrap32_of_int32 h4, wrap32_of_int32 h6, wrap32_of_int32 h6, Int.tdiv_neg]
    simp
  · simp only [if_true] at h6 ⊢
    have h5 := h5 rfl
    rw [wrap32_of_int32 h4, wrap32_of_int32 h5, wrap32_of_int32 h6, wrap32_of_int32 h6,
      Int.tdiv_neg]
    rfl

/-- Raw readings on which `map(raw, 1024, 423, 0, 100)` does not overflow. -/
theorem mapFits32_adc (rh : Bool) (r : Int) (h : -21473809 ≤ r ∧ r ≤ 21475860) :
    mapFits32 rh r ADC_DRY ADC_WET 0 100 := by
  have e3 : (-601 : Int).tdiv 2 = -300 := by decide
  have e4 : ((423 : Int) - 1024) = -601 := by decide
  have e5 : ((100 : Int) - 0) = 100 := by decide
  unfold mapFits32
  simp only [ADC_DRY, ADC_WET, e4, e5, e3, Int.add_zero]
  refine ⟨by decide, by decide, ?_, ?_, ?_, ?_⟩
  · unfold int32; omega
  · unfold int32; omega
  · intro _; unfold int32; omega
  · cases rh
    · simp only [Bool.false_eq_true, if_false, Int.tdiv_neg, tdiv_601]
      unfold int32
      split <;> omega
    · simp only [if_true, Int.tdiv_neg, tdiv_601]
      unfold int32
      split <;> omega

theorem rawReading_fits {rh : Bool} {r : Int} (h : rawReading rh r) :
    mapFits32 rh r ADC_DRY ADC_WET 0 100 := by
  rcases h with h | h
  · exact mapFits32_adc rh r (by omega)
  · exact h

/-- Closed form of the percentage on the specified domain. -/
theorem moisturePercent_eq (rh : Bool) (r : Int) (h : rawReading rh r) :
    moisturePercent rh r =
      constrain (-(((r - 1024) * 100 - (if rh then 300 else 0)).tdiv 601)) 0 100 := by
  unfold moisturePercent
  rw [map_adc_eq rh r (rawReading_fits h)]

/-- Integer form of the interpolation error inside the calibrated band. -/
theorem moisturePercent_error (rh : Bool) (r : Int) (h : ADC_WET ≤ r ∧ r ≤ ADC_DRY) :
    -601 < 601 * moisturePercent rh r - 100 * (1024 - r) ∧
    601 * moisturePercent rh r - 100 * (1024 - r) < 601 := by
  unfold ADC_WET ADC_DRY at h
  rw [moisturePercent_eq rh r (Or.inl (by omega)), tdiv_601]
  unfold constrain
  cases rh <;> simp only [Bool.false_eq_true, if_false, if_true] <;>
    (split_ifs <;> omega)

/-! ## Lemmas on `urlEncode` and the reference decoder -/

set_option maxRecDepth 100000 in
theorem urlEncodeStep_nil_eq : ∀ c : Byte, urlEncodeStep [] c = percentEncodeByte c := by
  decide

theorem urlEncodeStep_append (acc : Str) (c : Byte) :
    urlEncodeStep acc c = acc ++ urlEncodeStep [] c := by
  unfold urlEncodeStep
  split_ifs <;> simp

theorem foldl_urlEncodeStep (s : Str) : ∀ acc : Str,
    s.foldl urlEncodeStep acc = acc ++ s.flatMap percentEncodeByte := by
  induction s with
  | nil => intro acc; simp
  | cons c t ih =>
    intro acc
    rw [List.foldl_cons, ih, urlEncodeStep_append, urlEncodeStep_nil_eq]
    simp [List.flatMap_cons]

theorem urlEncode_eq_flatMap (s : Str) : urlEncode s = s.flatMap percentEncodeByte := by
  unfold urlEncode
  simpa using foldl_urlEncodeStep s []

theorem urlDecode_cons_of_ne (c : Byte) (t : Str) (h : c ≠ chr '%') :
    urlDecode (c :: t) = (if c = chr '+' then chr ' ' else c) :: urlDecode t := by
  match t with
  | [] => simp [urlDecode]
  | [d] => simp [urlDecode]
  | d :: d1 :: rest =>
    rw [urlDecode]
    split <;> simp [h]

theorem urlDecode_percent (h l : Byte) (hi lo : Nat) (t : Str)
    (hh : hexDigitVal h = some hi) (hl : hexDigitVal l = some lo) :
    urlDecode (chr '%' :: h :: l :: t) = Fin.ofNat (16 * hi + lo) :: urlDecode t := by
  rw [urlDecode]
  simp [hh, hl]

set_option maxRecDepth 100000 in
/-- The three shapes of an encoded byte, with what the decoder needs of each. -/
theorem percentEncodeByte_cases : ∀ b : Byte,
    (percentEncodeByte b = [b] ∧ b ≠ chr '%' ∧ b ≠ chr '+') ∨
    (percentEncodeByte b = [chr '+'] ∧ b = chr ' ') ∨
    (percentEncodeByte b = [chr '%', hexDigit (b.val / 16), hexDigit (b.val % 16)] ∧
      hexDigitVal (hexDigit (b.val / 16)) = some (b.val / 16) ∧
      hexDigitVal (hexDigit (b.val % 16)) = some (b.val % 16)) := by
  decide

theorem byte_div_mod (b : Byte) : (Fin.ofNat (16 * (b.val / 16) + b.val % 16) : Byte) = b := by
  have h : 16 * (b.val / 16) + b.val % 16 = b.val := Nat.div_add_mod b.val 16
  rw [h]
  apply Fin.ext
  simp [Fin.ofNat]

theorem urlDecode_flatMap (s : Str) : urlDecode (s.flatMap percentEncodeByte) = s := by
  induction s with
  | nil => simp [urlDecode]
  | cons b t ih =>
    rw [List.flatMap_cons]
    rcases percentEncodeByte_cases b with ⟨h, h1, h2⟩ | ⟨h, h1⟩ | ⟨h, h1, h2⟩
    · rw [h, List.singleton_append, urlDecode_cons_of_ne b _ h1, ih]
      simp [h2]
    · rw [h, List.singleton_append, urlDecode_cons_of_ne _ _ (by decide), ih, h1]
      simp
    · rw [h]
      have e : [chr '%', hexDigit (b.val / 16), hexDigit (b.val % 16)] ++
          t.flatMap percentEncodeByte =
          chr '%' :: hexDigit (b.val / 16) :: hexDigit (b.val % 16) ::
            t.flatMap percentEncodeByte := rfl
      rw [e, urlDecode_percent _ _ _ _ _ h1 h2, ih, byte_div_mod]

/-! ## Lemmas on the delivery loop and the sampler -/

theorem reportMessage_contains_percent (time : Str) (raw percent : Int) :
    (ofInt percent ++ lit "%") <:+: reportMessage time raw percent := by
  unfold reportMessage
  refine ⟨lit "💧 Medição humidade solo\n" ++ (lit "⏰ " ++ time ++ lit "\n") ++
    (lit "📊 Valor bruto: " ++ ofInt raw ++ lit "\n") ++ lit "📈 Estimativa: ", [], ?_⟩
  simp only [List.append_assoc, List.append_nil]

/-- What the three-iteration delivery loop adds to the effects: it starts
with a `send`, the number of `send`s is decided by the statuses read after the
attempts, every response received belongs to a `send`, and nothing sleeps. -/
theorem deliveryLoop_summary (e : Env) (m : Str) (w : World) :
    (deliveryLoop e m 3 false w).events =
        w.events ++ newEvents w (deliveryLoop e m 3 false w) ∧
    (∃ tail, newEvents w (deliveryLoop e m 3 false w) = Event.send m :: tail) ∧
    sendCount (newEvents w (deliveryLoop e m 3 false w)) =
      (if e.status (w.statusCalls + 1) = WL_CONNECTED then 1
       else if e.status (w.statusCalls + 3) = WL_CONNECTED then 2 else 3) ∧
    ((httpCodes (newEvents w (deliveryLoop e m 3 false w))).length = 3 →
      sendCount (newEvents w (deliveryLoop e m 3 false w)) = 3) ∧
    sleeps (newEvents w (deliveryLoop e m 3 false w)) = [] := by
  unfold newEvents
  by_cases h0 : e.status w.statusCalls = WL_CONNECTED <;>
  by_cases h1 : e.status (w.statusCalls + 1) = WL_CONNECTED <;>
  by_cases h2 : e.status (w.statusCalls + 2) = WL_CONNECTED <;>
  by_cases h3 : e.status (w.statusCalls + 3) = WL_CONNECTED <;>
  by_cases h4 : e.status (w.statusCalls + 4) = WL_CONNECTED <;>
  simp [deliveryLoop, sendWhatsAppMessage, wifiStatus, delay, emit, sendCount, httpCodes,
    sleeps, h0, h1, h2, h3, h4, List.countP_cons]

/-- The sampler always ends in deep sleep for 3600 s; its effects are those of
the delivery loop followed by the LED write and the sleep request. -/
theorem sampleAndReportMoisture_eq (e : Env) (w : World) :
    ∃ w2 : World, w2.events = w.events ∧ w2.statusCalls = w.statusCalls ∧
      ∃ w5 : World,
        sampleAndReportMoisture e w = Outcome.asleep (3600 * 1000000) w5 ∧
        w5.events =
          (deliveryLoop e
            (reportMessage (formatTm (e.gmtime w.gmtimeCalls)) (e.analogRead w.analogCalls)
              (moisturePercent e.roundHalf (e.analogRead w.analogCalls))) 3 false w2).events ++
          [Event.digitalWrite LED_PIN false, Event.deepSleep (3600 * 1000000)] := by
  refine ⟨{ w with analogCalls := w.analogCalls + 1, gmtimeCalls := w.gmtimeCalls + 1 },
    rfl, rfl, _, rfl, ?_⟩
  simp [emit, analogRead, getFormattedTime]

/-- The effects the sampler adds, split into those of the delivery loop and
the final two. -/
theorem sampleAndReportMoisture_newEvents (e : Env) (w : World) :
    ∃ w2 : World, w2.events = w.events ∧ w2.statusCalls = w.statusCalls ∧
      ∃ w5 : World,
        sampleAndReportMoisture e w = Outcome.asleep (3600 * 1000000) w5 ∧
        newEvents w w5 =
          newEvents w2 (deliveryLoop e
            (reportMessage (formatTm (e.gmtime w.gmtimeCalls)) (e.analogRead w.analogCalls)
              (moisturePercent e.roundHalf (e.analogRead w.analogCalls))) 3 false w2) ++
          [Event.digitalWrite LED_PIN false, Event.deepSleep (3600 * 1000000)] := by
  obtain ⟨w2, h2, h2s, w5, h5, h5e⟩ := sampleAndReportMoisture_eq e w
  refine ⟨w2, h2, h2s, w5, h5, ?_⟩
  have hd := (deliveryLoop_summary e
    (reportMessage (formatTm (e.gmtime w.gmtimeCalls)) (e.analogRead w.analogCalls)
      (moisturePercent e.roundHalf (e.analogRead w.analogCalls))) w2).1
  unfold newEvents at hd ⊢
  rw [h5e, hd, h2]
  simp

theorem sleeps_append (a b : List Event) : sleeps (a ++ b) = sleeps a ++ sleeps b := by
  simp [sleeps]

theorem sendCount_append (a b : List Event) :
    sendCount (a ++ b) = sendCount a + sendCount b := by
  simp [sendCount]

theorem httpCodes_append (a b : List Event) :
    httpCodes (a ++ b) = httpCodes a ++ httpCodes b := by
  simp [httpCodes]

/-- The sampler's `send` count and response codes are those of its delivery
loop, and it ends asleep with the sleep request as last effect. -/
theorem sampleAndReportMoisture_summary (e : Env) (w : World) :
    sendCount (newEvents w (sampleAndReportMoisture e w).world) =
      (if e.status (w.statusCalls + 1) = WL_CONNECTED then 1
       else if e.status (w.statusCalls + 3) = WL_CONNECTED then 2 else 3) ∧
    ((httpCodes (newEvents w (sampleAndReportMoisture e w).world)).length = 3 →
      sendCount (newEvents w (sampleAndReportMoisture e w).world) = 3) ∧
    ∃ w5, sampleAndReportMoisture e w = Outcome.asleep (3600 * 1000000) w5 ∧
      w5.events.getLast? = some (Event.deepSleep (3600 * 1000000)) := by
  obtain ⟨w2, h2, h2s, w5, h5, h5e⟩ := sampleAndReportMoisture_newEvents e w
  obtain ⟨w2', -, -, w5', h5', h5e'⟩ := sampleAndReportMoisture_eq e w
  obtain ⟨-, -, hc, hh, -⟩ := deliveryLoop_summary e
    (reportMessage (formatTm (e.gmtime w.gmtimeCalls)) (e.analogRead w.analogCalls)
      (moisturePercent e.roundHalf (e.analogRead w.analogCalls))) w2
  have hw : w5' = w5 := by
    rw [h5] at h5'
    injection h5' with _ h
    exact h.symm
  rw [h5, Outcome.world, h5e, sendCount_append, httpCodes_append, hc, h2s]
  refine ⟨by simp [sendCount], ?_, w5, rfl, ?_⟩
  · intro h3
    have : (httpCodes (newEvents w2 (deliveryLoop e
      (reportMessage (formatTm (e.gmtime w.gmtimeCalls)) (e.analogRead w.analogCalls)
        (moisturePercent e.roundHalf (e.analogRead w.analogCalls))) 3 false w2))).length
          = 3 := by
      simpa [httpCodes] using h3
    have h4 := hh this
    rw [hc, h2s] at h4
    rw [h4]
    simp [sendCount]
  · rw [← hw, h5e']; simp

/-! ## Lemmas on the WiFi manager and on `setup` -/

theorem BSSIDstr_ne_nil (m : Bssid) : BSSIDstr m ≠ [] := by
  simp [BSSIDstr, hex02X]

theorem connectToWiFi_attempts (e : Env) (w : World) :
    (connectToWiFi e w).connectionAttempts = wrap32 (w.connectionAttempts + 1) := by
  unfold connectToWiFi getBestBSSID scanNetworks
  simp only
  split_ifs <;> simp [millis, delay, emit]

/-- The three things `handleWiFiReconnection` can do to the attempt counter:
leave it, increment it through `connectToWiFi`, or reset it in the cooldown
branch of lines 303-305. -/
theorem handleWiFiReconnection_attempts (e : Env) (w : World) :
    (handleWiFiReconnection e w).connectionAttempts = w.connectionAttempts ∨
    (handleWiFiReconnection e w).connectionAttempts = wrap32 (w.connectionAttempts + 1) ∨
    (MAX_WIFI_ATTEMPTS ≤ w.connectionAttempts ∧
      (handleWiFiReconnection e w).connectionAttempts = 0 ∧
      (handleWiFiReconnection e w).wifiConnectStartTime = 0 ∧
      (handleWiFiReconnection e w).events = w.events ++ [Event.delay 30000]) := by
  unfold handleWiFiReconnection
  simp only [wifiStatus, millis]
  split_ifs <;> simp_all [connectToWiFi_attempts, delay, emit]

theorem connectToWiFi_sleeps (e : Env) (w : World) :
    sleeps (connectToWiFi e w).events = sleeps w.events := by
  unfold connectToWiFi getBestBSSID scanNetworks
  simp only
  split_ifs <;> simp [millis, delay, emit, sleeps]

theorem waitLoop_sleeps (e : Env) (fuel : Nat) : ∀ (c : Nat) (w : World),
    sleeps (waitLoop e fuel c w).events = sleeps w.events := by
  induction fuel with
  | zero => intro c w; rfl
  | succ k ih =>
    intro c w
    unfold waitLoop
    simp only [wifiStatus]
    split_ifs
    · rw [ih]; simp [delay, emit, sleeps]
    · rfl

theorem syncLoop_sleeps (e : Env) (left : Nat) : ∀ w : World,
    sleeps (syncLoop e left w).events = sleeps w.events := by
  induction left with
  | zero => intro w; rfl
  | succ k ih =>
    intro w
    unfold syncLoop
    simp only [timeUpdate]
    split_ifs
    · rfl
    · rw [ih]; simp [delay, emit, sleeps]

theorem setupWait_sleeps (e : Env) (w : World) :
    sleeps (setupWait e w).events = sleeps w.events := by
  unfold setupWait initWiFi
  simp only
  rw [waitLoop_sleeps, connectToWiFi_sleeps]
  simp [delay, emit, sleeps]

theorem sleeps_loop_iterate (n : Nat) (w : World) :
    sleeps (loop^[n] w).events = sleeps w.events := by
  induction n generalizing w with
  | zero => rfl
  | succ k ih =>
    rw [Function.iterate_succ_apply, ih]
    simp [loop, delay, emit, sleeps]

/-- With the link never reported connected, `setup` returns without a sleep
request. -/
theorem setup_envDown :
    (match setup envDown World.boot with
      | Outcome.returned w => decide (sleeps w.events = [])
      | Outcome.asleep _ _ => false) = true := by
  decide

/-- With the relay answering 500 and the link reported connected at every
reading, the delivery loop makes one request and one send only. -/
theorem relay_failure_link_up_single_send :
    httpCodes (newEvents World.boot (sampleAndReportMoisture envRelayFails World.boot).world)
      = [500] ∧
    sendCount (newEvents World.boot (sampleAndReportMoisture envRelayFails World.boot).world)
      = 1 := by
  decide

/-- Invariant of the selection loop of `getBestBSSID` after any prefix of the scan. -/
theorem foldl_getBestBSSIDStep_inv (results : List ScanEntry) :
    ((results.foldl getBestBSSIDStep ([], -100)) = ([], -100) ∧
      ∀ ap ∈ results, ap.SSID = ssid → ap.RSSI ≤ -100) ∨
    (∃ ap ∈ results, ap.SSID = ssid ∧ -100 < ap.RSSI ∧
      results.foldl getBestBSSIDStep ([], -100) = (BSSIDstr ap.BSSID, ap.RSSI) ∧
      ∀ ap1 ∈ results, ap1.SSID = ssid → ap1.RSSI ≤ ap.RSSI) := by
  induction results using List.reverseRecOn with
  | nil => left; simp
  | append_singleton l a ih =>
    rw [List.foldl_append, List.foldl_cons, List.foldl_nil]
    rcases ih with ⟨h0, hall⟩ | ⟨ap, hmem, hs, hr, hf, hmax⟩
    · rw [h0]
      unfold getBestBSSIDStep
      by_cases hm : a.SSID = ssid
      · by_cases hg : a.RSSI > -100
        · right
          refine ⟨a, by simp, hm, hg, by simp [hm, hg], ?_⟩
          intro ap1 h1 h1s
          rcases List.mem_append.1 h1 with h1 | h1
          · have := hall ap1 h1 h1s; omega
          · simp at h1; rw [h1]
        · left
          refine ⟨by simp [hm, hg], ?_⟩
          intro ap1 h1 h1s
          rcases List.mem_append.1 h1 with h1 | h1
          · exact hall ap1 h1 h1s
          · simp at h1; rw [h1]; omega
      · left
        refine ⟨by simp [hm], ?_⟩
        intro ap1 h1 h1s
        rcases List.mem_append.1 h1 with h1 | h1
        · exact hall ap1 h1 h1s
        · simp at h1; rw [h1] at h1s; exact absurd h1s hm
    · rw [hf]
      unfold getBestBSSIDStep
      right
      by_cases hm : a.SSID = ssid
      · by_cases hg : a.RSSI > ap.RSSI
        · refine ⟨a, by simp, hm, by omega, by simp [hm, hg], ?_⟩
          intro ap1 h1 h1s
          rcases List.mem_append.1 h1 with h1 | h1
          · have := hmax ap1 h1 h1s; omega
          · simp at h1; rw [h1]
        · refine ⟨ap, by simp [hmem], hs, hr, by simp [hm, hg], ?_⟩
          intro ap1 h1 h1s
          rcases List.mem_append.1 h1 with h1 | h1
          · exact hmax ap1 h1 h1s
          · simp at h1; rw [h1]; omega
      · refine ⟨ap, by simp [hmem], hs, hr, by simp [hm], ?_⟩
        intro ap1 h1 h1s
        rcases List.mem_append.1 h1 with h1 | h1
        · exact hmax ap1 h1 h1s
        · simp at h1; rw [h1] at h1s; exact absurd h1s hm

/-- What `getBestBSSID` computes: the empty string exactly when no entry of
the target name is heard above -100 dBm, and otherwise the address of an entry
of the target name whose signal strength is maximal. -/
theorem bestBSSIDOf_spec (results : List ScanEntry) :
    (bestBSSIDOf results = [] ↔ ∀ ap ∈ results, ap.SSID = ssid → ap.RSSI ≤ -100) ∧
    (bestBSSIDOf results ≠ [] →
      ∃ ap ∈ results, ap.SSID = ssid ∧ bestBSSIDOf results = BSSIDstr ap.BSSID ∧
        ∀ ap1 ∈ results, ap1.SSID = ssid → ap1.RSSI ≤ ap.RSSI) := by
  unfold bestBSSIDOf
  rcases foldl_getBestBSSIDStep_inv results with ⟨h0, hall⟩ | ⟨ap, hmem, hs, hr, hf, hmax⟩
  · rw [h0]
    exact ⟨⟨fun _ => hall, fun _ => rfl⟩, fun h => absurd rfl h⟩
  · rw [hf]
    refine ⟨⟨fun h => absurd h (BSSIDstr_ne_nil _), fun h => ?_⟩, fun _ => ⟨ap, hmem, hs, rfl, hmax⟩⟩
    have := h ap hmem hs
    omega

/-- The effects and the state changes of one `connectToWiFi` call. -/
theorem connectToWiFi_effect (e : Env) (w : World) :
    (bestBSSIDOf (e.scan w.scanCalls) = [] →
      connectToWiFi e w =
        { w with scanCalls := w.scanCalls + 1,
                 connectionAttempts := wrap32 (w.connectionAttempts + 1) }) ∧
    (bestBSSIDOf (e.scan w.scanCalls) ≠ [] →
      connectToWiFi e w =
        { w with scanCalls := w.scanCalls + 2, millisCalls := w.millisCalls + 1,
                 events := w.events ++
                   [Event.wifiBegin
                      (targetChannelOf (e.scan (w.scanCalls + 1))
                        (bestBSSIDOf (e.scan w.scanCalls)))
                      (convertBSSIDStringToBytes (bestBSSIDOf (e.scan w.scanCalls))
                        (List.replicate 6 none)),
                    Event.delay 500],
                 wifiConnectStartTime := wrapU32 (e.millis w.millisCalls),
                 connectionAttempts := wrap32 (w.connectionAttempts + 1) }) := by
  constructor
  · intro h
    unfold connectToWiFi getBestBSSID scanNetworks
    simp [h]
  · intro h
    unfold connectToWiFi getBestBSSID scanNetworks
    simp [h, millis, delay, emit]

theorem connectToWiFi_shouldReconnect (e : Env) (w : World) :
    (connectToWiFi e w).shouldReconnect = w.shouldReconnect ∧
    (connectToWiFi e w).lastDisconnectTime = w.lastDisconnectTime := by
  by_cases h : bestBSSIDOf (e.scan w.scanCalls) = []
  · rw [(connectToWiFi_effect e w).1 h]; exact ⟨rfl, rfl⟩
  · rw [(connectToWiFi_effect e w).2 h]; exact ⟨rfl, rfl⟩

/-! ## The claims -/

/-- C1: for every raw reading `r` of the sampler's domain (the ADC range
`0..1024`, or any `int` on which the 32-bit arithmetic of `map` does not
overflow) the percentage `constrain(map(r, 1024, 423, 0, 100), 0, 100)` lies
in `[0,100]`, is 100 whenever `r <= 423` and is 0 whenever `r >= 1024`; this
holds for both implementations of `map`. -/
theorem moisturePercent_range_and_endpoints (rh : Bool) (r : Int) (h : rawReading rh r) :
    (0 ≤ moisturePercent rh r ∧ moisturePercent rh r ≤ 100) ∧
    (r ≤ ADC_WET → moisturePercent rh r = 100) ∧
    (ADC_DRY ≤ r → moisturePercent rh r = 0) := by
  rw [moisturePercent_eq rh r h, tdiv_601]
  unfold constrain ADC_WET ADC_DRY
  cases rh <;> simp only [Bool.false_eq_true, if_false, if_true] <;>
    (split_ifs <;> omega)

/-- C1 at the reading 300, below the wet endpoint: the percentage is 100. -/
theorem moisturePercent_range_and_endpoints_witness :
    rawReading true 300 ∧ moisturePercent true 300 = 100 :=
  ⟨by decide, (moisturePercent_range_and_endpoints true 300 (by decide)).2.1 (by decide)⟩

/-- C2: the percentage is monotonically non-increasing in the raw reading:
for raw readings `r1 <= r2` of the sampler's domain,
`percentage(r1) >= percentage(r2)`. -/
theorem moisturePercent_antitone (rh : Bool) (r1 r2 : Int) (h1 : rawReading rh r1)
    (h2 : rawReading rh r2) (h : r1 ≤ r2) :
    moisturePercent rh r2 ≤ moisturePercent rh r1 := by
  rw [moisturePercent_eq rh r1 h1, moisturePercent_eq rh r2 h2, tdiv_601, tdiv_601]
  unfold constrain
  cases rh <;> simp only [Bool.false_eq_true, if_false, if_true] <;>
    (split_ifs <;> omega)

/-- C2 at the readings 500 and 900 of the calibrated band. -/
theorem moisturePercent_antitone_witness :
    (rawReading false 500 ∧ rawReading false 900 ∧ (500 : Int) ≤ 900) ∧
    moisturePercent false 900 ≤ moisturePercent false 500 :=
  ⟨by decide, moisturePercent_antitone false 500 900 (by decide) (by decide) (by decide)⟩

/-- C3: the sampler is a two-point linear interpolation: for a raw reading in
`423..1024` the integer percentage differs from the exact value
`100 * (1024 - raw) / 601` by less than 1; the first effect of the sampler is
a `send` of the report, and the report contains the decimal percentage
immediately followed by `%`.  Raw 423 gives 100 and a report containing
`100%`, raw 1024 gives 0, raw 723 gives 50. -/
theorem sampler_two_point_interpolation (e : Env) (w : World)
    (h : ADC_WET ≤ e.analogRead w.analogCalls ∧ e.analogRead w.analogCalls ≤ ADC_DRY) :
    |((moisturePercent e.roundHalf (e.analogRead w.analogCalls) : Int) : ℚ) -
        100 * (1024 - (e.analogRead w.analogCalls : ℚ)) / 601| < 1 ∧
    (∃ rest, (sampleAndReportMoisture e w).world.events =
        w.events ++ Event.send (reportMessage (formatTm (e.gmtime w.gmtimeCalls))
          (e.analogRead w.analogCalls)
          (moisturePercent e.roundHalf (e.analogRead w.analogCalls))) :: rest) ∧
    (ofInt (moisturePercent e.roundHalf (e.analogRead w.analogCalls)) ++ lit "%") <:+:
      reportMessage (formatTm (e.gmtime w.gmtimeCalls)) (e.analogRead w.analogCalls)
        (moisturePercent e.roundHalf (e.analogRead w.analogCalls)) ∧
    (e.analogRead w.analogCalls = 423 →
      moisturePercent e.roundHalf (e.analogRead w.analogCalls) = 100 ∧
      lit "100%" <:+:
        reportMessage (formatTm (e.gmtime w.gmtimeCalls)) (e.analogRead w.analogCalls)
          (moisturePercent e.roundHalf (e.analogRead w.analogCalls))) ∧
    (e.analogRead w.analogCalls = 1024 →
      moisturePercent e.roundHalf (e.analogRead w.analogCalls) = 0) ∧
    (e.analogRead w.analogCalls = 723 →
      moisturePercent e.roundHalf (e.analogRead w.analogCalls) = 50) := by
  have hpc := reportMessage_contains_percent (formatTm (e.gmtime w.gmtimeCalls))
    (e.analogRead w.analogCalls) (moisturePercent e.roundHalf (e.analogRead w.analogCalls))
  have h423 : ∀ rh : Bool, moisturePercent rh 423 = 100 := by decide
  have h1024 : ∀ rh : Bool, moisturePercent rh 1024 = 0 := by decide
  have h723 : ∀ rh : Bool, moisturePercent rh 723 = 50 := by decide
  refine ⟨?_, ?_, hpc, ?_, ?_, ?_⟩
  · obtain ⟨hlo, hhi⟩ := moisturePercent_error e.roundHalf _ h
    have hlo' : (-601 : ℚ) < 601 * (moisturePercent e.roundHalf (e.analogRead w.analogCalls) : ℚ)
        - 100 * (1024 - (e.analogRead w.analogCalls : ℚ)) := by exact_mod_cast hlo
    have hhi' : 601 * (moisturePercent e.roundHalf (e.analogRead w.analogCalls) : ℚ)
        - 100 * (1024 - (e.analogRead w.analogCalls : ℚ)) < 601 := by exact_mod_cast hhi
    have hx : 601 * (100 * (1024 - (e.analogRead w.analogCalls : ℚ)) / 601) =
        100 * (1024 - (e.analogRead w.analogCalls : ℚ)) := by
      field_simp
    rw [abs_lt]
    constructor <;> linarith
  · obtain ⟨w2, h2, -, w5, h5, h5e⟩ := sampleAndReportMoisture_eq e w
    obtain ⟨hd, ⟨tail, ht⟩, -⟩ := deliveryLoop_summary e
      (reportMessage (formatTm (e.gmtime w.gmtimeCalls)) (e.analogRead w.analogCalls)
        (moisturePercent e.roundHalf (e.analogRead w.analogCalls))) w2
    refine ⟨tail ++ [Event.digitalWrite LED_PIN false, Event.deepSleep (3600 * 1000000)], ?_⟩
    rw [h5, Outcome.world, h5e, hd, ht, h2]
    simp
  · intro hr
    rw [hr] at hpc ⊢
    rw [h423] at hpc ⊢
    exact ⟨rfl, hpc⟩
  · intro hr
    rw [hr, h1024]
  · intro hr
    rw [hr, h723]

/-- C3 in the environment `envUp`, whose probe reads 423, from the boot state:
the percentage is 100. -/
theorem sampler_two_point_interpolation_witness :
    (ADC_WET ≤ envUp.analogRead World.boot.analogCalls ∧
      envUp.analogRead World.boot.analogCalls ≤ ADC_DRY) ∧
    moisturePercent envUp.roundHalf (envUp.analogRead World.boot.analogCalls) = 100 :=
  ⟨by decide,
    ((sampler_two_point_interpolation envUp World.boot (by decide)).2.2.2.1 (by decide)).1⟩

/-- C4: percent-encoding round trip: for every byte sequence `s`, the
reference URL decoder applied to `urlEncode(s)` gives back `s`. -/
theorem urlDecode_urlEncode (s : Str) : urlDecode (urlEncode s) = s := by
  rw [urlEncode_eq_flatMap, urlDecode_flatMap]

/-- C5: `urlEncode` is the character-wise concatenation of the rule
"alphanumeric unchanged, space to `+`, any other byte to `%` and its two
upper-case hex digits", and encoding `A B!` yields `A+B%21`. -/
theorem urlEncode_is_percentEncoding (s : Str) :
    urlEncode s = s.flatMap percentEncodeByte ∧
    urlEncode (lit "A B!") = lit "A+B%21" :=
  ⟨urlEncode_eq_flatMap s, by decide⟩

/-- C6 (the code departs from the claim): a scan whose only entry carries
the target name at -100 dBm makes `getBestBSSID` return the empty string,
although an entry matches the target name; the initial `bestRSSI = -100` of
line 206 is never exceeded.  On the scan `[(A,-60),(B,-40),(C,-70)]` of the
specification the result is `B`. -/
theorem getBestBSSID_misses_access_point_at_minus_100 :
    (∃ ap ∈ envWeak.scan World.boot.scanCalls, ap.SSID = ssid) ∧
    (getBestBSSID envWeak World.boot).1 = [] ∧
    bestBSSIDOf [targetAP 0xA (-60) 1, targetAP 0xB (-40) 6, targetAP 0xC (-70) 11] =
      BSSIDstr (targetAP 0xB (-40) 6).BSSID := by
  refine ⟨⟨targetAP 1 (-100) 6, by decide, by decide⟩, by decide, by decide⟩

/-- C7 fails as stated: with the link never reported connected, `setup`
returns without calling `ESP.deepSleep`, and however often `loop` then runs,
no sleep is requested. -/
theorem bootCycle_link_down_never_sleeps :
    (∃ w, setup envDown World.boot = Outcome.returned w ∧ sleeps w.events = []) ∧
    (∀ n : Nat, ∃ w, bootCycle envDown n = Outcome.returned w ∧ sleeps w.events = []) := by
  have h := setup_envDown
  unfold bootCycle
  cases hs : setup envDown World.boot with
  | asleep us w => rw [hs] at h; simp at h
  | returned w =>
    rw [hs] at h
    have hw : sleeps w.events = [] := by simpa using h
    refine ⟨⟨w, rfl, hw⟩, fun n => ⟨_, rfl, ?_⟩⟩
    rw [sleeps_loop_iterate]
    exact hw

/-- C7 as amended: for every boot cycle in which the test of line 89 reads
`WL_CONNECTED` after the bounded wait, whatever the other statuses, the
time-sync results and the HTTP responses, the cycle ends by entering deep
sleep for 3600 s: the sleep request is the last effect and the only one. -/
theorem bootCycle_sleeps_when_connected (e : Env) (n : Nat)
    (h : statusAfterWait e World.boot = WL_CONNECTED) :
    ∃ w, bootCycle e n = Outcome.asleep (3600 * 1000000) w ∧
      w.events.getLast? = some (Event.deepSleep (3600 * 1000000)) ∧
      sleeps w.events = [3600 * 1000000] := by
  unfold statusAfterWait wifiStatus at h
  simp only at h
  obtain ⟨w2, h2, -, w5, h5, h5e⟩ := sampleAndReportMoisture_eq e
    (syncLoop e 3 { setupWait e World.boot with
      statusCalls := (setupWait e World.boot).statusCalls + 1 })
  obtain ⟨hd, -, -, -, hs⟩ := deliveryLoop_summary e
    (reportMessage
      (formatTm (e.gmtime (syncLoop e 3 { setupWait e World.boot with
        statusCalls := (setupWait e World.boot).statusCalls + 1 }).gmtimeCalls))
      (e.analogRead (syncLoop e 3 { setupWait e World.boot with
        statusCalls := (setupWait e World.boot).statusCalls + 1 }).analogCalls)
      (moisturePercent e.roundHalf
        (e.analogRead (syncLoop e 3 { setupWait e World.boot with
          statusCalls := (setupWait e World.boot).statusCalls + 1 }).analogCalls))) w2
  refine ⟨w5, ?_, ?_, ?_⟩
  · unfold bootCycle setup wifiStatus
    simp only [h, if_true, h5]
  · rw [h5e]; simp
  · rw [h5e, hd, sleeps_append, sleeps_append, hs, h2, syncLoop_sleeps]
    have := setupWait_sleeps e World.boot
    simp only [] at this ⊢
    rw [this]
    simp [sleeps, World.boot]

/-- C7 as amended, in the environment `envUp` where the link is reported
connected at every reading. -/
theorem bootCycle_sleeps_when_connected_witness :
    statusAfterWait envUp World.boot = WL_CONNECTED ∧
    ∃ w, bootCycle envUp 0 = Outcome.asleep (3600 * 1000000) w ∧
      w.events.getLast? = some (Event.deepSleep (3600 * 1000000)) ∧
      sleeps w.events = [3600 * 1000000] :=
  ⟨by decide, bootCycle_sleeps_when_connected envUp 0 (by decide)⟩

/-- The delivery loop receives at most three responses. -/
theorem deliveryLoop_httpCodes_le (e : Env) (m : Str) (w : World) :
    (httpCodes (newEvents w (deliveryLoop e m 3 false w))).length ≤ 3 := by
  unfold newEvents
  by_cases h0 : e.status w.statusCalls = WL_CONNECTED <;>
  by_cases h1 : e.status (w.statusCalls + 1) = WL_CONNECTED <;>
  by_cases h2 : e.status (w.statusCalls + 2) = WL_CONNECTED <;>
  by_cases h3 : e.status (w.statusCalls + 3) = WL_CONNECTED <;>
  by_cases h4 : e.status (w.statusCalls + 4) = WL_CONNECTED <;>
  simp [deliveryLoop, sendWhatsAppMessage, wifiStatus, delay, emit, httpCodes,
    h0, h1, h2, h3, h4]

/-- C8 fails as stated: in `envRelayFails` the relay answers 500 to every
request and the link is reported connected at every reading; the first
attempt receives a non-200 response, the status read at line 137 is
`WL_CONNECTED`, and `sendWhatsAppMessage` is invoked once, not 3 times. -/
theorem delivery_non200_link_up_one_send :
    (∀ k < 3, envRelayFails.httpGET (World.boot.httpCalls + k) ≠ 200) ∧
    httpCodes (newEvents World.boot (sampleAndReportMoisture envRelayFails World.boot).world)
      = [500] ∧
    sendCount (newEvents World.boot (sampleAndReportMoisture envRelayFails World.boot).world)
      = 1 ∧
    sendCount (newEvents World.boot (sampleAndReportMoisture envRelayFails World.boot).world)
      ≠ 3 := by
  decide

/-- C8 as amended: in every run of the sampler in which the status read after
the first and after the second delivery attempt (line 137) is not
`WL_CONNECTED`, `sendWhatsAppMessage` is invoked exactly 3 times, whatever the
HTTP responses, and the run then enters deep sleep for 3600 s; every response
received in the run belongs to one of these invocations. -/
theorem delivery_retries_while_link_down (e : Env) (w : World)
    (h1 : statusAfterAttempt e w 1 ≠ WL_CONNECTED)
    (h2 : statusAfterAttempt e w 2 ≠ WL_CONNECTED) :
    sendCount (newEvents w (sampleAndReportMoisture e w).world) = 3 ∧
    (httpCodes (newEvents w (sampleAndReportMoisture e w).world)).length ≤ 3 ∧
    ∃ w5, sampleAndReportMoisture e w = Outcome.asleep (3600 * 1000000) w5 ∧
      w5.events.getLast? = some (Event.deepSleep (3600 * 1000000)) := by
  have e1 : statusAfterAttempt e w 1 = e.status (w.statusCalls + 1) := rfl
  have e2 : statusAfterAttempt e w 2 = e.status (w.statusCalls + 3) := rfl
  rw [e1] at h1
  rw [e2] at h2
  obtain ⟨hc, -, hs⟩ := sampleAndReportMoisture_summary e w
  refine ⟨by rw [hc]; simp [h1, h2], ?_, hs⟩
  obtain ⟨w2, h2e, h2s, w5, h5, h5e⟩ := sampleAndReportMoisture_newEvents e w
  rw [h5, Outcome.world, h5e, httpCodes_append]
  have hlen := deliveryLoop_httpCodes_le e
    (reportMessage (formatTm (e.gmtime w.gmtimeCalls)) (e.analogRead w.analogCalls)
      (moisturePercent e.roundHalf (e.analogRead w.analogCalls))) w2
  simp [httpCodes] at hlen ⊢
  exact hlen

/-- C8 as amended, in `envFlap`: the link is up at each attempt and down at
each check after it; three responses 500 are received and three sends made. -/
theorem delivery_retries_while_link_down_witness :
    (statusAfterAttempt envFlap World.boot 1 ≠ WL_CONNECTED ∧
      statusAfterAttempt envFlap World.boot 2 ≠ WL_CONNECTED) ∧
    httpCodes (newEvents World.boot (sampleAndReportMoisture envFlap World.boot).world)
      = [500, 500, 500] ∧
    sendCount (newEvents World.boot (sampleAndReportMoisture envFlap World.boot).world) = 3 :=
  ⟨by decide, by decide,
   (delivery_retries_while_link_down envFlap World.boot (by decide) (by decide)).1⟩

/-- C9: the number of invocations of `sendWhatsAppMessage` is the index (1, 2
or 3) of the first attempt after which the status read is `WL_CONNECTED`, or
3 if there is none; it is at least 1 and at most 3 and does not depend on the
HTTP response codes. -/
theorem delivery_send_count (e : Env) (w : World) :
    sendCount (newEvents w (sampleAndReportMoisture e w).world) =
      (if statusAfterAttempt e w 1 = WL_CONNECTED then 1
       else if statusAfterAttempt e w 2 = WL_CONNECTED then 2
       else if statusAfterAttempt e w 3 = WL_CONNECTED then 3 else 3) ∧
    (1 ≤ sendCount (newEvents w (sampleAndReportMoisture e w).world) ∧
      sendCount (newEvents w (sampleAndReportMoisture e w).world) ≤ 3) ∧
    ∀ g : Nat → Int,
      sendCount (newEvents w (sampleAndReportMoisture { e with httpGET := g } w).world) =
        sendCount (newEvents w (sampleAndReportMoisture e w).world) := by
  have h := (sampleAndReportMoisture_summary e w).1
  have e1 : statusAfterAttempt e w 1 = e.status (w.statusCalls + 1) := rfl
  have e2 : statusAfterAttempt e w 2 = e.status (w.statusCalls + 3) := rfl
  refine ⟨by rw [h, e1, e2]; simp, ?_, ?_⟩
  · rw [h]; split_ifs <;> simp
  · intro g
    rw [h, (sampleAndReportMoisture_summary { e with httpGET := g } w).1]

/-- C10 fails as stated: with five attempts made and the attempt in flight
timed out, `handleWiFiReconnection` takes the branch of lines 303-305 and
leaves the counter at 0, lower than the 5 it started with. -/
theorem handleWiFiReconnection_lowers_counter :
    (handleWiFiReconnection envTimeout worldExhausted).connectionAttempts <
      worldExhausted.connectionAttempts := by
  decide

/-- C10 as amended: `onWifiConnect` sets the counter to 0 and clears the flag
and both timers from every state; `onWifiDisconnect` leaves the counter as it
is; where the increment does not overflow, `connectToWiFi` never lowers the
counter, and `handleWiFiReconnection` lowers it only in its cooldown branch,
entered with at least `MAX_WIFI_ATTEMPTS` attempts made, where it sets the
counter and the connect start time to 0 and waits 30 s. -/
theorem attempt_counter_reset_policy (e : Env) (w : World) :
    (onWifiConnect w).manager = (0, 0, false, 0) ∧
    (onWifiDisconnect e w).connectionAttempts = w.connectionAttempts ∧
    (int32 (w.connectionAttempts + 1) →
      w.connectionAttempts ≤ (connectToWiFi e w).connectionAttempts ∧
      (w.connectionAttempts ≤ (handleWiFiReconnection e w).connectionAttempts ∨
        (MAX_WIFI_ATTEMPTS ≤ w.connectionAttempts ∧
          (handleWiFiReconnection e w).connectionAttempts = 0 ∧
          (handleWiFiReconnection e w).wifiConnectStartTime = 0 ∧
          (handleWiFiReconnection e w).events = w.events ++ [Event.delay 30000]))) := by
  refine ⟨rfl, ?_, ?_⟩
  · unfold onWifiDisconnect
    split_ifs <;> simp [millis]
  · intro h
    constructor
    · rw [connectToWiFi_attempts, wrap32_of_int32 h]; omega
    · rcases handleWiFiReconnection_attempts e w with h1 | h1 | h1
      · left; omega
      · left; rw [h1, wrap32_of_int32 h]; omega
      · right; exact h1

/-- C10 as amended, in the boot state with the link reported connected: the
first `connectToWiFi` takes the counter from 0 to 1. -/
theorem attempt_counter_reset_policy_witness :
    int32 (World.boot.connectionAttempts + 1) ∧
    World.boot.connectionAttempts ≤ (connectToWiFi envUp World.boot).connectionAttempts :=
  ⟨by decide, ((attempt_counter_reset_policy envUp World.boot).2.2 (by decide)).1⟩

/-- C11: connect timeout.  In a state where the status read is not
`WL_CONNECTED`, an attempt is in flight (`wifiConnectStartTime > 0`), more
than 15000 ms have elapsed since it started and the status then read is
disconnected, idle or SSID-not-found: with at least 5 attempts made, tick
resets the counter to 0, waits 30 s and starts no connection attempt (no scan,
no other effect); with fewer than 5 it clears the start time and calls
`connectToWiFi` exactly once. -/
theorem connect_timeout (e : Env) (w : World)
    (hnc : e.status w.statusCalls ≠ WL_CONNECTED)
    (hstart : 0 < w.wifiConnectStartTime)
    (hel : WIFI_TIMEOUT < elapsed (wrapU32 (e.millis w.millisCalls)) w.wifiConnectStartTime)
    (hst : e.status (w.statusCalls + 1) = WL_DISCONNECTED ∨
      e.status (w.statusCalls + 1) = WL_IDLE_STATUS ∨
      e.status (w.statusCalls + 1) = WL_NO_SSID_AVAIL) :
    (MAX_WIFI_ATTEMPTS ≤ w.connectionAttempts →
      handleWiFiReconnection e w =
        delay 30000 { w with statusCalls := w.statusCalls + 2, millisCalls := w.millisCalls + 1,
                             wifiConnectStartTime := 0, connectionAttempts := 0 } ∧
      (handleWiFiReconnection e w).connectionAttempts = 0 ∧
      newEvents w (handleWiFiReconnection e w) = [Event.delay 30000] ∧
      (handleWiFiReconnection e w).scanCalls = w.scanCalls) ∧
    (w.connectionAttempts < MAX_WIFI_ATTEMPTS →
      handleWiFiReconnection e w =
        connectToWiFi e { w with statusCalls := w.statusCalls + 2,
                                 millisCalls := w.millisCalls + 1,
                                 wifiConnectStartTime := 0 }) := by
  unfold elapsed at hel
  have hel' : decide (wrapU32 (wrapU32 (e.millis w.millisCalls) + 4294967296 -
      w.wifiConnectStartTime) > WIFI_TIMEOUT) = true := by simpa using hel
  constructor
  · intro hmax
    have hn : ¬ w.connectionAttempts < MAX_WIFI_ATTEMPTS := by omega
    have h1 : handleWiFiReconnection e w =
        delay 30000 { w with statusCalls := w.statusCalls + 2, millisCalls := w.millisCalls + 1,
                             wifiConnectStartTime := 0, connectionAttempts := 0 } := by
      unfold handleWiFiReconnection
      simp only [wifiStatus, millis]
      simp [hnc, hstart, hel', hst, hn]
    rw [h1]
    simp [delay, emit, newEvents]
  · intro hlt
    unfold handleWiFiReconnection
    simp only [wifiStatus, millis]
    simp [hnc, hstart, hel', hst, hlt]

/-- C11 in the state `worldExhausted` (5 attempts, in flight since 1000 ms)
with the clock at 20000 ms and the link down: the counter is reset to 0. -/
theorem connect_timeout_witness :
    (envTimeout.status worldExhausted.statusCalls ≠ WL_CONNECTED ∧
      0 < worldExhausted.wifiConnectStartTime ∧
      WIFI_TIMEOUT < elapsed (wrapU32 (envTimeout.millis worldExhausted.millisCalls))
        worldExhausted.wifiConnectStartTime ∧
      MAX_WIFI_ATTEMPTS ≤ worldExhausted.connectionAttempts) ∧
    (handleWiFiReconnection envTimeout worldExhausted).connectionAttempts = 0 :=
  ⟨by decide,
   ((connect_timeout envTimeout worldExhausted (by decide) (by decide) (by decide)
      (by decide)).1 (by decide)).2.1⟩

theorem loop_iterate_manager (n : Nat) (w : World) :
    (loop^[n] w).manager = w.manager ∧ (loop^[n] w).scanCalls = w.scanCalls ∧
    begins (loop^[n] w).events = begins w.events := by
  induction n generalizing w with
  | zero => exact ⟨rfl, rfl, rfl⟩
  | succ k ih =>
    rw [Function.iterate_succ_apply]
    obtain ⟨h1, h2, h3⟩ := ih (loop w)
    rw [h1, h2, h3]
    simp [loop, delay, emit, World.manager, begins]

/-- In `envStuck` the first attempt is started and `setup` returns; a tick in
the state it leaves would retry. -/
theorem setup_envStuck :
    (match setup envStuck World.boot with
      | Outcome.returned w =>
        decide (w.manager = (1, 1000, false, 0) ∧
          (loop w).manager ≠ (handleWiFiReconnection envStuck w).manager ∧
          (handleWiFiReconnection envStuck w).connectionAttempts = 2)
      | Outcome.asleep _ _ => false) = true := by
  decide

/-- C12 fails as stated: in `envStuck` `setup` returns with the first attempt
in flight; one iteration of `loop` leaves the manager state as it is, while
`handleWiFiReconnection`, 20 s later, would retry and change it. -/
theorem loop_is_not_tick :
    ∃ w, setup envStuck World.boot = Outcome.returned w ∧
      w.manager = (1, 1000, false, 0) ∧
      (loop w).manager ≠ (handleWiFiReconnection envStuck w).manager := by
  have h := setup_envStuck
  cases hs : setup envStuck World.boot with
  | asleep us w => rw [hs] at h; simp at h
  | returned w =>
    rw [hs] at h
    simp only [decide_eq_true_eq] at h
    exact ⟨w, rfl, h.1, h.2.1⟩

/-- C12 as amended: an iteration of the idle loop is `delay(1000)` only; for
every state and every number of iterations the manager state is unchanged, no
scan is made and no connection is initiated, so a timeout or an armed
reconnect is acted on only where `handleWiFiReconnection` is called, which
neither `setup` nor `loop` does. -/
theorem loop_only_delays (w : World) (n : Nat) :
    loop w = delay 1000 w ∧
    (loop^[n] w).manager = w.manager ∧
    (loop^[n] w).scanCalls = w.scanCalls ∧
    begins (loop^[n] w).events = begins w.events :=
  ⟨rfl, loop_iterate_manager n w⟩

/-- C13 fails as stated: with the reconnect armed since 2000 ms, an attempt in
flight since 1000 ms and the clock at 20000 ms, tick takes the connect-timeout
branch and returns: under status `WL_DISCONNECTED` it retries but leaves the
flag armed; under `WL_CONNECT_FAILED` it changes nothing and starts nothing. -/
theorem tick_timeout_skips_scheduled_reconnect :
    (worldArmedInFlight.shouldReconnect = true ∧
      RECONNECT_DELAY < elapsed (wrapU32 (envTimeout.millis 0))
        worldArmedInFlight.lastDisconnectTime) ∧
    (handleWiFiReconnection envTimeout worldArmedInFlight).shouldReconnect = true ∧
    (handleWiFiReconnection envFailed worldArmedInFlight).manager =
      worldArmedInFlight.manager ∧
    (handleWiFiReconnection envFailed worldArmedInFlight).scanCalls = 0 := by
  decide

/-- C13 as amended: with the reconnect armed, more than 5000 ms elapsed since
the recorded disconnect, the status reads not `WL_CONNECTED`, and the
connect-timeout test of line 290 not firing (no attempt in flight, or at most
15000 ms since it started), tick clears the flag and calls `connectToWiFi`
exactly once, whatever the attempt counter and the status codes. -/
theorem scheduled_reconnect (e : Env) (w : World)
    (hflag : w.shouldReconnect = true)
    (hnc0 : e.status w.statusCalls ≠ WL_CONNECTED)
    (hnc1 : e.status (w.statusCalls + 1) ≠ WL_CONNECTED)
    (hquiet : w.wifiConnectStartTime = 0 ∨
      elapsed (wrapU32 (e.millis w.millisCalls)) w.wifiConnectStartTime ≤ WIFI_TIMEOUT)
    (hdue : RECONNECT_DELAY <
      elapsed (wrapU32 (e.millis
        (w.millisCalls + (if w.wifiConnectStartTime = 0 then 0 else 1))))
        w.lastDisconnectTime) :
    handleWiFiReconnection e w =
      connectToWiFi e
        { w with statusCalls := w.statusCalls + 2,
                 millisCalls :=
                   w.millisCalls + (if w.wifiConnectStartTime = 0 then 1 else 2),
                 shouldReconnect := false } ∧
    (handleWiFiReconnection e w).shouldReconnect = false := by
  have h : handleWiFiReconnection e w =
      connectToWiFi e
        { w with statusCalls := w.statusCalls + 2,
                 millisCalls :=
                   w.millisCalls + (if w.wifiConnectStartTime = 0 then 1 else 2),
                 shouldReconnect := false } := by
    unfold elapsed at hquiet hdue
    by_cases h0 : w.wifiConnectStartTime = 0
    · simp only [h0, if_true, Nat.add_zero] at hdue ⊢
      unfold handleWiFiReconnection
      simp only [wifiStatus, millis]
      simp [h0, hflag, hdue, hnc1]
    · have hpos : 0 < w.wifiConnectStartTime := Nat.pos_of_ne_zero h0
      have hq : ¬ (WIFI_TIMEOUT < wrapU32 (wrapU32 (e.millis w.millisCalls) + 4294967296 -
          w.wifiConnectStartTime)) := by
        rcases hquiet with hq | hq
        · exact absurd hq h0
        · omega
      simp only [h0, if_false] at hdue ⊢
      unfold handleWiFiReconnection
      simp only [wifiStatus, millis]
      simp [hnc0, hpos, hq, hflag, hdue, hnc1]
  refine ⟨h, ?_⟩
  rw [h, (connectToWiFi_shouldReconnect e _).1]

/-- C13 as amended, in a manager state with a reconnect armed by a disconnect
at 2000 ms and no attempt in flight, polled at 20000 ms with the link down:
the flag is cleared. -/
theorem scheduled_reconnect_witness :
    ({ worldArmedInFlight with wifiConnectStartTime := 0 }.shouldReconnect = true ∧
      RECONNECT_DELAY < elapsed (wrapU32 (envTimeout.millis 0)) 2000) ∧
    (handleWiFiReconnection envTimeout
      { worldArmedInFlight with wifiConnectStartTime := 0 }).shouldReconnect = false :=
  ⟨by decide,
   (scheduled_reconnect envTimeout { worldArmedInFlight with wifiConnectStartTime := 0 }
      (by decide) (by decide) (by decide) (by decide) (by decide)).2⟩

/-- C14: `onWifiDisconnect` with fewer than 5 attempts made sets the
pending-reconnect flag and records the current time as last disconnect time,
leaving the counter and the connect start time unchanged; with 5 or more it
leaves the whole state unchanged. -/
theorem onWifiDisconnect_effect (e : Env) (w : World) :
    if w.connectionAttempts < MAX_WIFI_ATTEMPTS then
      (onWifiDisconnect e w).manager =
        (w.connectionAttempts, w.wifiConnectStartTime, true, wrapU32 (e.millis w.millisCalls))
    else
      onWifiDisconnect e w = w ∧ (onWifiDisconnect e w).manager = w.manager := by
  unfold onWifiDisconnect
  split_ifs <;> simp [millis, World.manager]

/-- The two cases of `connectToWiFi` in terms of the scan: where the increment
does not overflow the counter grows by one; when every entry of the target
name is heard at -100 dBm or below (in particular when there is none) nothing
else changes and nothing is initiated; when an entry of the target name is
heard above -100 dBm exactly one connection is initiated and the connect start
time is the clock read after it. -/
theorem connectToWiFi_cases (e : Env) (w : World)
    (h : int32 (w.connectionAttempts + 1)) :
    (connectToWiFi e w).connectionAttempts = w.connectionAttempts + 1 ∧
    ((∀ ap ∈ e.scan w.scanCalls, ap.SSID = ssid → ap.RSSI ≤ -100) →
      newEvents w (connectToWiFi e w) = [] ∧
      (connectToWiFi e w).wifiConnectStartTime = w.wifiConnectStartTime ∧
      (connectToWiFi e w).shouldReconnect = w.shouldReconnect ∧
      (connectToWiFi e w).lastDisconnectTime = w.lastDisconnectTime) ∧
    ((∃ ap ∈ e.scan w.scanCalls, ap.SSID = ssid ∧ -100 < ap.RSSI) →
      (begins (newEvents w (connectToWiFi e w))).length = 1 ∧
      (connectToWiFi e w).wifiConnectStartTime = wrapU32 (e.millis w.millisCalls)) := by
  refine ⟨?_, ?_, ?_⟩
  · rw [connectToWiFi_attempts, wrap32_of_int32 h]
  · intro hno
    have hnil : bestBSSIDOf (e.scan w.scanCalls) = [] := (bestBSSIDOf_spec _).1.2 hno
    rw [(connectToWiFi_effect e w).1 hnil]
    simp [newEvents]
  · intro hex
    have hc : bestBSSIDOf (e.scan w.scanCalls) ≠ [] := by
      intro hnil
      obtain ⟨ap, hap, hs, hr⟩ := hex
      have := (bestBSSIDOf_spec _).1.1 hnil ap hap hs
      omega
    rw [(connectToWiFi_effect e w).2 hc]
    simp [newEvents, begins]

/-- C15 (the code departs from the claim): in `envWeak` the scan holds an
access point of the target name, heard at -100 dBm, so a candidate exists;
`connectToWiFi` from the boot state counts the attempt but initiates no
connection and leaves the connect start time at 0.  The cause is the initial
`bestRSSI = -100` of `getBestBSSID` (line 206), as for C6. -/
theorem connectToWiFi_skips_candidate_at_minus_100 :
    (∃ ap ∈ envWeak.scan World.boot.scanCalls, ap.SSID = ssid) ∧
    begins (newEvents World.boot (connectToWiFi envWeak World.boot)) = [] ∧
    (connectToWiFi envWeak World.boot).manager = (1, 0, false, 0) := by
  refine ⟨⟨targetAP 1 (-100) 6, by decide, by decide⟩, by decide, by decide⟩

/-- From a state with no attempt in flight and no reconnect armed, ticks and
connection events change neither the effects nor that condition. -/
theorem idle_ops (e : Env) (ops : List ManagerOp) : ∀ w : World,
    w.wifiConnectStartTime = 0 → w.shouldReconnect = false →
    ManagerOp.onDisconnected ∉ ops →
    (ops.foldl (applyOp e) w).events = w.events ∧
    (ops.foldl (applyOp e) w).scanCalls = w.scanCalls ∧
    (ops.foldl (applyOp e) w).wifiConnectStartTime = 0 ∧
    (ops.foldl (applyOp e) w).shouldReconnect = false := by
  induction ops with
  | nil => intro w h0 hf _; exact ⟨rfl, rfl, h0, hf⟩
  | cons op t ih =>
    intro w h0 hf hn
    have hop : op ≠ ManagerOp.onDisconnected := fun h => hn (by simp [h])
    have ht : ManagerOp.onDisconnected ∉ t := fun h => hn (by simp [h])
    rw [List.foldl_cons]
    cases op with
    | onDisconnected => exact absurd rfl hop
    | onConnected =>
      obtain ⟨h1, h2, h3, h4⟩ := ih (onWifiConnect w) rfl rfl ht
      exact ⟨h1, h2, h3, h4⟩
    | tick =>
      have htick : handleWiFiReconnection e w = { w with statusCalls := w.statusCalls + 1 } := by
        unfold handleWiFiReconnection
        simp [wifiStatus, h0, hf]
      obtain ⟨h1, h2, h3, h4⟩ := ih (handleWiFiReconnection e w)
        (by rw [htick]; exact h0) (by rw [htick]; exact hf) ht
      refine ⟨?_, ?_, h3, h4⟩
      · rw [show applyOp e w ManagerOp.tick = handleWiFiReconnection e w from rfl, h1, htick]
      · rw [show applyOp e w ManagerOp.tick = handleWiFiReconnection e w from rfl, h2, htick]

/-- C20: in a state with connect start time 0 and pending-reconnect false,
tick leaves the manager state unchanged and starts no connection attempt (no
scan, no effect), for every clock and status; the same holds after any
sequence of ticks and connection events, so that only `onWifiDisconnect` (or a
direct `connectToWiFi` call) can start another attempt. -/
theorem no_retry_without_disconnect (e : Env) (w : World)
    (h0 : w.wifiConnectStartTime = 0) (hf : w.shouldReconnect = false) :
    (handleWiFiReconnection e w).manager = w.manager ∧
    (handleWiFiReconnection e w).events = w.events ∧
    (handleWiFiReconnection e w).scanCalls = w.scanCalls ∧
    ∀ ops : List ManagerOp, ManagerOp.onDisconnected ∉ ops →
      (ops.foldl (applyOp e) w).events = w.events ∧
      (ops.foldl (applyOp e) w).scanCalls = w.scanCalls ∧
      (ops.foldl (applyOp e) w).wifiConnectStartTime = 0 ∧
      (ops.foldl (applyOp e) w).shouldReconnect = false := by
  have htick : handleWiFiReconnection e w = { w with statusCalls := w.statusCalls + 1 } := by
    unfold handleWiFiReconnection
    simp [wifiStatus, h0, hf]
  refine ⟨by rw [htick]; rfl, by rw [htick], by rw [htick], ?_⟩
  intro ops hn
  exact idle_ops e ops w h0 hf hn

/-- C20 in the state the cooldown branch leaves from `worldExhausted`: a
further tick keeps the manager state. -/
theorem no_retry_without_disconnect_witness :
    ((handleWiFiReconnection envTimeout worldExhausted).wifiConnectStartTime = 0 ∧
      (handleWiFiReconnection envTimeout worldExhausted).shouldReconnect = false) ∧
    (handleWiFiReconnection envTimeout
        (handleWiFiReconnection envTimeout worldExhausted)).manager =
      (handleWiFiReconnection envTimeout worldExhausted).manager :=
  ⟨by decide,
   (no_retry_without_disconnect envTimeout
      (handleWiFiReconnection envTimeout worldExhausted) (by decide) (by decide)).1⟩

theorem wrap32_succ_small {a : Int} (h0 : 0 ≤ a) (h1 : a ≤ 6) : wrap32 (a + 1) = a + 1 := by
  unfold wrap32; omega

theorem attemptsInv_applyOp (e : Env) (w : World) (op : ManagerOp) (h : attemptsInv w) :
    attemptsInv (applyOp e w op) := by
  obtain ⟨h0, h1, h2⟩ := h
  cases op with
  | onConnected =>
    show attemptsInv (onWifiConnect w)
    unfold attemptsInv onWifiConnect
    simp
  | onDisconnected =>
    show attemptsInv (onWifiDisconnect e w)
    unfold onWifiDisconnect MAX_WIFI_ATTEMPTS
    split_ifs with hlt
    · exact ⟨h0, h1, fun _ => by simp [millis]; omega⟩
    · exact ⟨h0, h1, h2⟩
  | tick =>
    show attemptsInv (handleWiFiReconnection e w)
    unfold attemptsInv handleWiFiReconnection MAX_WIFI_ATTEMPTS
    simp only [wifiStatus, millis]
    split_ifs <;>
      simp_all [connectToWiFi_attempts, connectToWiFi_shouldReconnect, delay, emit,
        wrap32_succ_small h0 h1] <;> omega

theorem attemptsInv_runOps (e : Env) (ops : List ManagerOp) : attemptsInv (runOps e ops) := by
  unfold runOps
  have hinit : attemptsInv (initWiFi e World.boot) := by
    unfold attemptsInv initWiFi
    rw [connectToWiFi_attempts, (connectToWiFi_shouldReconnect e World.boot).1]
    exact ⟨by decide, by decide, fun h => by simp [World.boot] at h⟩
  generalize initWiFi e World.boot = w at hinit
  induction ops generalizing w with
  | nil => exact hinit
  | cons op t ih => exact ih _ (attemptsInv_applyOp e w op hinit)

/-- C19 (the code departs from the claim): from the boot state, after
initialisation, three timed-out polls, a disconnect event at 4 attempts (which
arms the reconnect), a fourth timed-out poll (attempt 5, the flag stays armed)
and a poll that finds the reconnect due, the counter is 6, above
`MAX_WIFI_ATTEMPTS`, and six connections have been initiated: the scheduled
reconnect of lines 312-318 calls `connectToWiFi` without the test
`connectionAttempts < MAX_WIFI_ATTEMPTS` that line 299 makes. -/
theorem attempt_counter_overshoots_cap :
    (runOps envOvershoot opsOvershoot).connectionAttempts = 6 ∧
    MAX_WIFI_ATTEMPTS < (runOps envOvershoot opsOvershoot).connectionAttempts ∧
    (begins (runOps envOvershoot opsOvershoot).events).length = 6 := by
  decide

set_option maxRecDepth 100000 in
/-- What `strtol` and the separator test need of a hexadecimal digit. -/
theorem hexDigitVal_facts : ∀ c : Byte, (hexDigitVal c).isSome = true →
    isspace c = false ∧ c ≠ chr '-' ∧ c ≠ chr '+' ∧ c ≠ chr ':' ∧ c ≠ chr 'x' ∧
    c ≠ chr 'X' ∧ (hexDigitVal c).getD 0 < 16 := by
  decide

/-- The value `strtol` reads from two hexadecimal digits, as a byte. -/
theorem strtol16_two_digits (h l : Byte) (hi lo : Nat)
    (hh : hexDigitVal h = some hi) (hl : hexDigitVal l = some lo) :
    toByte (strtol16 [h, l]) = Fin.ofNat (16 * hi + lo) := by
  obtain ⟨h1, h2, h3, -, -, -, h7⟩ := hexDigitVal_facts h (by rw [hh]; rfl)
  obtain ⟨-, -, -, -, l5, l6, l7⟩ := hexDigitVal_facts l (by rw [hl]; rfl)
  rw [hh] at h7
  rw [hl] at l7
  simp only [Option.getD_some] at h7 l7
  unfold strtol16
  simp only [List.dropWhile, h1, h2, h3, l5, l6, if_false, false_or, and_false,
    strtolDigits, hh, hl]
  have hv : ¬ (0 * 16 + hi) * 16 + lo > 2147483647 := by omega
  simp only [hv, if_false, Bool.false_eq_true]
  unfold toByte
  congr 1
  omega

/-- The writes of the conversion loop on six two-character groups. -/
theorem convertBSSIDWrites_macText (h0 l0 h1 l1 h2 l2 h3 l3 h4 l4 h5 l5 : Byte)
    (n0 : h0 ≠ chr ':') (m0 : l0 ≠ chr ':') (n1 : h1 ≠ chr ':') (m1 : l1 ≠ chr ':')
    (n2 : h2 ≠ chr ':') (m2 : l2 ≠ chr ':') (n3 : h3 ≠ chr ':') (m3 : l3 ≠ chr ':')
    (n4 : h4 ≠ chr ':') (m4 : l4 ≠ chr ':') (n5 : h5 ≠ chr ':') (m5 : l5 ≠ chr ':') :
    convertBSSIDWrites (macText h0 l0 h1 l1 h2 l2 h3 l3 h4 l4 h5 l5) =
      [(0, toByte (strtol16 [h0, l0])), (1, toByte (strtol16 [h1, l1])),
       (2, toByte (strtol16 [h2, l2])), (3, toByte (strtol16 [h3, l3])),
       (4, toByte (strtol16 [h4, l4])), (5, toByte (strtol16 [h5, l5]))] := by
  unfold convertBSSIDWrites macText
  simp [convertBSSIDLoop, charAt, substring, n0, m0, n1, m1, n2, m2, n3, m3, n4, m4, n5, m5]

set_option maxRecDepth 100000 in
theorem hexDigitCase_val : ∀ (u : Bool) (b : Byte),
    hexDigitVal (hexDigitCase u (b.val / 16)) = some (b.val / 16) ∧
    hexDigitVal (hexDigitCase u (b.val % 16)) = some (b.val % 16) := by
  decide

theorem hexDigitCase_ne_colon (u : Bool) (b : Byte) :
    hexDigitCase u (b.val / 16) ≠ chr ':' ∧ hexDigitCase u (b.val % 16) ≠ chr ':' := by
  obtain ⟨h1, h2⟩ := hexDigitCase_val u b
  exact ⟨(hexDigitVal_facts _ (by rw [h1]; rfl)).2.2.2.1,
    (hexDigitVal_facts _ (by rw [h2]; rfl)).2.2.2.1⟩

theorem strtol16_hexDigitCase (u : Bool) (b : Byte) :
    toByte (strtol16 [hexDigitCase u (b.val / 16), hexDigitCase u (b.val % 16)]) = b := by
  obtain ⟨h1, h2⟩ := hexDigitCase_val u b
  rw [strtol16_two_digits _ _ _ _ h1 h2, byte_div_mod]

theorem bssidText_true (m : Bssid) : bssidText true m = BSSIDstr m := by
  simp [bssidText, BSSIDstr, hex02X, macText, hexDigitCase]

theorem convertBSSIDWrites_bssidText (u : Bool) (m : Bssid) :
    convertBSSIDWrites (bssidText u m) =
      [(0, m.b0), (1, m.b1), (2, m.b2), (3, m.b3), (4, m.b4), (5, m.b5)] := by
  unfold bssidText
  rw [convertBSSIDWrites_macText _ _ _ _ _ _ _ _ _ _ _ _
    (hexDigitCase_ne_colon u m.b0).1 (hexDigitCase_ne_colon u m.b0).2
    (hexDigitCase_ne_colon u m.b1).1 (hexDigitCase_ne_colon u m.b1).2
    (hexDigitCase_ne_colon u m.b2).1 (hexDigitCase_ne_colon u m.b2).2
    (hexDigitCase_ne_colon u m.b3).1 (hexDigitCase_ne_colon u m.b3).2
    (hexDigitCase_ne_colon u m.b4).1 (hexDigitCase_ne_colon u m.b4).2
    (hexDigitCase_ne_colon u m.b5).1 (hexDigitCase_ne_colon u m.b5).2]
  simp only [strtol16_hexDigitCase]

theorem convertBSSIDStringToBytes_bssidText (u : Bool) (m : Bssid)
    (buf : List (Option Byte)) (hbuf : buf.length = 6) :
    convertBSSIDStringToBytes (bssidText u m) buf =
      [some m.b0, some m.b1, some m.b2, some m.b3, some m.b4, some m.b5] := by
  unfold convertBSSIDStringToBytes
  rw [convertBSSIDWrites_bssidText]
  match buf, hbuf with
  | [a0, a1, a2, a3, a4, a5], _ => simp [List.set]

theorem BSSIDstr_injective (m1 m2 : Bssid) (h : BSSIDstr m1 = BSSIDstr m2) : m1 = m2 := by
  have h1 := convertBSSIDWrites_bssidText true m1
  have h2 := convertBSSIDWrites_bssidText true m2
  rw [bssidText_true] at h1 h2
  rw [h, h2] at h1
  cases m1; cases m2
  simp at h1
  simp [h1]

/-- C17: BSSID text-to-binary round trip: for every six-byte hardware
address, `convertBSSIDStringToBytes` applied to its textual form (six
two-digit hexadecimal groups separated by `:`, as `BSSIDstr` produces it)
writes exactly `b0 .. b5`, in order, to the output bytes `0 .. 5`, with
upper-case and with lower-case digits alike. -/
theorem bssid_text_round_trip (m : Bssid) (upper : Bool) (buf : List (Option Byte))
    (hbuf : buf.length = 6) :
    convertBSSIDWrites (bssidText upper m) =
      [(0, m.b0), (1, m.b1), (2, m.b2), (3, m.b3), (4, m.b4), (5, m.b5)] ∧
    convertBSSIDStringToBytes (bssidText upper m) buf =
      [some m.b0, some m.b1, some m.b2, some m.b3, some m.b4, some m.b5] ∧
    bssidText true m = BSSIDstr m :=
  ⟨convertBSSIDWrites_bssidText upper m, convertBSSIDStringToBytes_bssidText upper m buf hbuf,
    bssidText_true m⟩

/-- C17 at the address `AA:BB:0C:DD:EE:02` written in lower case, converted
into the uninitialised six-byte buffer of line 272. -/
theorem bssid_text_round_trip_witness :
    (List.replicate 6 (none : Option Byte)).length = 6 ∧
    bssidText false ⟨0xAA, 0xBB, 0x0C, 0xDD, 0xEE, 0x02⟩ = lit "aa:bb:0c:dd:ee:02" ∧
    convertBSSIDStringToBytes (bssidText false ⟨0xAA, 0xBB, 0x0C, 0xDD, 0xEE, 0x02⟩)
        (List.replicate 6 none) =
      [some 0xAA, some 0xBB, some 0x0C, some 0xDD, some 0xEE, some 0x02] :=
  ⟨by decide, by decide,
   (bssid_text_round_trip ⟨0xAA, 0xBB, 0x0C, 0xDD, 0xEE, 0x02⟩ false (List.replicate 6 none)
      (by decide)).2.1⟩

/-- The channel lookup of lines 263-270 finds an entry with the address, or
keeps the initial 0 when there is none. -/
theorem targetChannelOf_cases (results : List ScanEntry) (m : Bssid) :
    (∃ ap ∈ results, ap.BSSID = m ∧ targetChannelOf results (BSSIDstr m) = ap.channel) ∨
    ((∀ ap ∈ results, ap.BSSID ≠ m) ∧ targetChannelOf results (BSSIDstr m) = 0) := by
  unfold targetChannelOf
  cases hf : results.find? (fun ap => BSSIDstr ap.BSSID = BSSIDstr m) with
  | none =>
    right
    refine ⟨?_, rfl⟩
    intro ap hap heq
    have := List.find?_eq_none.1 hf ap hap
    simp [heq] at this
  | some ap =>
    left
    have hp := List.find?_some hf
    simp only [decide_eq_true_eq] at hp
    exact ⟨ap, List.mem_of_find?_eq_some hf, BSSIDstr_injective _ _ hp, rfl⟩

/-- C16 fails as stated: `connectToWiFi` scans a second time (line 264) to
look the channel up.  In `envRescan` selection returns the access point heard
on channel 6, the second scan hears nothing, and the connection is initiated
with channel 0. -/
theorem connect_channel_from_second_scan :
    (getBestBSSID envRescan World.boot).1 = BSSIDstr (targetAP 1 (-40) 6).BSSID ∧
    (targetAP 1 (-40) 6).channel = 6 ∧
    begins (connectToWiFi envRescan World.boot).events =
      [(0, [some 0xAA, some 0xBB, some 0xCC, some 0xDD, some 0xEE, some 1])] := by
  decide

/-- C16 as amended: whenever selection returns a candidate, the connection is
initiated with that candidate's six address bytes, and with the channel that
a second scan reports for the first entry carrying the candidate's address:
the candidate's own channel when the second scan lists that address with the
candidate's channel, and 0 when the second scan does not list the address. -/
theorem connect_pins_bssid (e : Env) (w : World)
    (h : bestBSSIDOf (e.scan w.scanCalls) ≠ []) :
    ∃ ap ∈ e.scan w.scanCalls, ap.SSID = ssid ∧
      (getBestBSSID e w).1 = BSSIDstr ap.BSSID ∧
      begins (newEvents w (connectToWiFi e w)) =
        [(targetChannelOf (e.scan (w.scanCalls + 1)) (BSSIDstr ap.BSSID),
          [some ap.BSSID.b0, some ap.BSSID.b1, some ap.BSSID.b2, some ap.BSSID.b3,
           some ap.BSSID.b4, some ap.BSSID.b5])] ∧
      ((∃ ap2 ∈ e.scan (w.scanCalls + 1), ap2.BSSID = ap.BSSID) →
        (∀ ap2 ∈ e.scan (w.scanCalls + 1), ap2.BSSID = ap.BSSID → ap2.channel = ap.channel) →
        targetChannelOf (e.scan (w.scanCalls + 1)) (BSSIDstr ap.BSSID) = ap.channel) ∧
      ((∀ ap2 ∈ e.scan (w.scanCalls + 1), ap2.BSSID ≠ ap.BSSID) →
        targetChannelOf (e.scan (w.scanCalls + 1)) (BSSIDstr ap.BSSID) = 0) := by
  obtain ⟨ap, hmem, hs, hb, -⟩ := (bestBSSIDOf_spec (e.scan w.scanCalls)).2 h
  refine ⟨ap, hmem, hs, by simp [getBestBSSID, scanNetworks, hb], ?_, ?_, ?_⟩
  · rw [(connectToWiFi_effect e w).2 h, hb, ← bssidText_true,
      convertBSSIDStringToBytes_bssidText true ap.BSSID _ (by simp)]
    simp [newEvents, begins]
  · intro hex hall
    rcases targetChannelOf_cases (e.scan (w.scanCalls + 1)) ap.BSSID with
      ⟨ap2, h2, h2b, h2c⟩ | ⟨hno, -⟩
    · rw [h2c, hall ap2 h2 h2b]
    · obtain ⟨ap2, h2, h2b⟩ := hex
      exact absurd h2b (hno ap2 h2)
  · intro hno
    rcases targetChannelOf_cases (e.scan (w.scanCalls + 1)) ap.BSSID with
      ⟨ap2, h2, h2b, -⟩ | ⟨-, h0⟩
    · exact absurd h2b (hno ap2 h2)
    · exact h0

/-- C16 as amended, in `envStuck` from the boot state, where both scans hear
the same access point. -/
theorem connect_pins_bssid_witness :
    bestBSSIDOf (envStuck.scan World.boot.scanCalls) ≠ [] ∧
    ∃ ap ∈ envStuck.scan World.boot.scanCalls, ap.SSID = ssid ∧
      (getBestBSSID envStuck World.boot).1 = BSSIDstr ap.BSSID ∧
      begins (newEvents World.boot (connectToWiFi envStuck World.boot)) =
        [(targetChannelOf (envStuck.scan (World.boot.scanCalls + 1)) (BSSIDstr ap.BSSID),
          [some ap.BSSID.b0, some ap.BSSID.b1, some ap.BSSID.b2, some ap.BSSID.b3,
           some ap.BSSID.b4, some ap.BSSID.b5])] :=
  ⟨by decide,
   match connect_pins_bssid envStuck World.boot (by decide) with
   | ⟨ap, h1, h2, h3, h4, _⟩ => ⟨ap, h1, h2, h3, h4⟩⟩

/-- Past the end of the string the loop test fails. -/
theorem convertBSSIDLoop_past_end (s : Str) (fuel i k start : Nat) (h : s.length < i) :
    convertBSSIDLoop s fuel i k start = [] := by
  cases fuel with
  | zero => rfl
  | succ f =>
    unfold convertBSSIDLoop
    have : ¬ (i ≤ s.length ∧ k < 6) := by omega
    simp [this]

theorem groupWrites_full (rest cur : Str) (k : Nat) (h : 6 ≤ k) : groupWrites rest cur k = [] := by
  have : ¬ k < 6 := by omega
  cases rest <;> simp [groupWrites, this]

/-- The index loop of the source and its list reading agree from every loop
state with `start <= i <= length`, given enough iterations. -/
theorem convertBSSIDLoop_eq (s : Str) : ∀ (fuel i k start : Nat),
    start ≤ i → i ≤ s.length → s.length + 1 ≤ fuel + i →
    convertBSSIDLoop s fuel i k start = groupWrites (s.drop i) ((s.take i).drop start) k := by
  intro fuel
  induction fuel with
  | zero => intro i k start _ h2 h3; omega
  | succ f ih =>
    intro i k start h1 h2 h3
    have hsub : substring s start i = (s.take i).drop start := by
      unfold substring
      have : ¬ start > i := by omega
      simp [this]
    have hcur : ((s.take i).drop start ≠ []) ↔ i > start := by
      rw [← List.length_pos, List.length_drop, List.length_take, Nat.min_eq_left h2]
      omega
    unfold convertBSSIDLoop
    by_cases hk : k < 6
    · rcases Nat.lt_or_eq_of_le h2 with hlt | heq
      · -- a character is left
        have hne : i ≠ s.length := by omega
        have hdrop : s.drop i = s[i] :: s.drop (i + 1) := List.drop_eq_getElem_cons hlt
        have hch : charAt s i = s[i] := by
          unfold charAt
          exact List.getD_eq_getElem _ _ hlt
        have htake : (s.take (i + 1)).drop start = (s.take i).drop start ++ [s[i]] := by
          rw [List.take_succ, List.getElem?_eq_getElem hlt]
          simp only [Option.toList]
          rw [List.drop_append_of_le_length (by rw [List.length_take]; omega)]
        have hnil : (s.take (i + 1)).drop (i + 1) = [] := by
          apply List.drop_eq_nil_of_le
          rw [List.length_take]; omega
        rw [hdrop, groupWrites, hch, hsub]
        simp only [h2, hk, and_self, if_true, hne, false_or]
        by_cases hc : s[i] = chr ':'
        · simp only [hc, if_true]
          by_cases hs : i > start
          · have := hcur.2 hs
            simp only [hs, this, if_true, ne_eq, not_false_eq_true]
            rw [ih (i + 1) (k + 1) (i + 1) (le_refl _) (by omega) (by omega), hnil]
          · have : ¬ ((s.take i).drop start ≠ []) := fun h => hs (hcur.1 h)
            simp only [hs, this, if_false]
            rw [ih (i + 1) k (i + 1) (le_refl _) (by omega) (by omega), hnil]
        · simp only [hc, if_false]
          rw [ih (i + 1) k start (by omega) (by omega) (by omega), htake]
      · -- the end of the string
        have hdrop : s.drop i = [] := by rw [heq]; exact List.drop_length s
        rw [hdrop, groupWrites, hsub]
        simp only [h2, hk, and_self, if_true, heq, true_or]
        rw [← heq]
        by_cases hs : i > start
        · have := hcur.2 hs
          simp only [hs, this, if_true, ne_eq, not_false_eq_true]
          rw [convertBSSIDLoop_past_end s f (i + 1) _ _ (by omega)]
          simp
        · have : ¬ ((s.take i).drop start ≠ []) := fun h => hs (hcur.1 h)
          simp only [hs, this, if_false]
          rw [convertBSSIDLoop_past_end s f (i + 1) _ _ (by omega)]
          simp
    · have : ¬ (i ≤ s.length ∧ k < 6) := by omega
      simp only [this, if_false]
      rw [groupWrites_full _ _ _ (by omega)]

/-- The writes of the conversion are those of the list reading of the loop,
for every bound of at least `length + 1` iterations. -/
theorem convertBSSIDLoop_fuel (s : Str) (fuel : Nat) (h : s.length + 1 ≤ fuel) :
    convertBSSIDLoop s fuel 0 0 0 = groupWrites s [] 0 := by
  rw [convertBSSIDLoop_eq s fuel 0 0 0 (le_refl _) (Nat.zero_le _) (by omega)]
  simp

theorem splitOn_colon_cons (c : Byte) (t : Str) :
    (c :: t).splitOn (chr ':') =
      if c = chr ':' then [] :: t.splitOn (chr ':')
      else (t.splitOn (chr ':')).modifyHead (List.cons c) := by
  show (c :: t).splitOnP (fun x => x == chr ':') = _
  rw [List.splitOnP_cons]
  by_cases h : c = chr ':'
  · simp only [h, beq_self_eq_true, if_true]; rfl
  · have : (c == chr ':') = false := by simpa using h
    simp only [this, h, if_false, Bool.false_eq_true]; rfl

theorem filter_nonEmpty_cons_length (g : Str) (gs : List Str) :
    ((g :: gs).filter (fun g => !g.isEmpty)).length =
      (if g = [] then 0 else 1) + (gs.filter (fun g => !g.isEmpty)).length := by
  cases g with
  | nil => simp [List.filter]
  | cons a t => simp [List.filter]; omega

theorem groupCount_nil (cur : Str) : groupCount cur [] = if cur = [] then 0 else 1 := by
  unfold groupCount
  rw [List.splitOn_nil, List.modifyHead_cons, filter_nonEmpty_cons_length]
  simp

theorem groupCount_nil_left (rest : Str) : groupCount [] rest = nonEmptyGroups rest := by
  unfold groupCount nonEmptyGroups
  have : (fun g : Str => [] ++ g) = id := by funext g; simp
  rw [this, List.modifyHead_id]
  rfl

theorem groupCount_sep (cur t : Str) :
    groupCount cur (chr ':' :: t) = (if cur = [] then 0 else 1) + groupCount [] t := by
  rw [groupCount_nil_left]
  unfold groupCount nonEmptyGroups
  rw [splitOn_colon_cons, if_pos rfl, List.modifyHead_cons, filter_nonEmpty_cons_length]
  simp

theorem groupCount_char (cur t : Str) (c : Byte) (h : c ≠ chr ':') :
    groupCount cur (c :: t) = groupCount (cur ++ [c]) t := by
  unfold groupCount
  rw [splitOn_colon_cons, if_neg h, List.modifyHead_modifyHead]
  congr 3
  funext g
  simp

/-- The number of writes and their indices. -/
theorem groupWrites_length (rest : Str) : ∀ (cur : Str) (k : Nat),
    (groupWrites rest cur k).length = min (6 - k) (groupCount cur rest) ∧
    (groupWrites rest cur k).map Prod.fst = List.range' k (groupWrites rest cur k).length := by
  induction rest with
  | nil =>
    intro cur k
    unfold groupWrites
    rw [groupCount_nil]
    by_cases hk : k < 6
    · by_cases hc : cur = []
      · simp [hk, hc]
      · simp [hk, hc]
        omega
    · simp [hk]
      omega
  | cons c t ih =>
    intro cur k
    unfold groupWrites
    by_cases hk : k < 6
    · by_cases hc : c = chr ':'
      · rw [hc, groupCount_sep]
        by_cases hcur : cur = []
        · obtain ⟨h1, h2⟩ := ih [] k
          simp only [hk, hcur, if_true, ne_eq, not_true_eq_false, if_false]
          refine ⟨?_, h2⟩
          rw [h1]
          simp
        · obtain ⟨h1, h2⟩ := ih [] (k + 1)
          simp only [hk, hcur, if_true, if_false, ne_eq, not_false_eq_true]
          constructor
          · rw [List.length_cons, h1]
            omega
          · rw [List.map_cons, h2, List.length_cons, List.range'_succ]
      · obtain ⟨h1, h2⟩ := ih (cur ++ [c]) k
        rw [groupCount_char _ _ _ hc]
        simp only [hk, hc, if_true, if_false]
        exact ⟨h1, h2⟩
    · simp [hk]
      omega

theorem foldl_set_getElem?_of_ne (wrs : List (Nat × Byte)) :
    ∀ (buf : List (Option Byte)) (j : Nat), (∀ wr ∈ wrs, wr.1 ≠ j) →
      (wrs.foldl (fun buf wr => buf.set wr.1 (some wr.2)) buf)[j]? = buf[j]? := by
  induction wrs with
  | nil => intro buf j _; rfl
  | cons wr t ih =>
    intro buf j h
    rw [List.foldl_cons, ih _ j (fun wr1 h1 => h wr1 (List.mem_cons_of_mem _ h1))]
    exact List.getElem?_set_ne (h wr (List.mem_cons_self _ _))

/-- When the loop ends by its test, its writes are those of
`convertBSSIDLoop`. -/
theorem convertBSSIDRun_writes (s : Str) : ∀ (fuel i k start : Nat) (ws : List (Nat × Byte)),
    convertBSSIDRun s fuel i k start = some ws → convertBSSIDLoop s fuel i k start = ws := by
  intro fuel
  induction fuel with
  | zero => intro i k start ws h; simp [convertBSSIDRun] at h
  | succ f ih =>
    intro i k start ws h
    unfold convertBSSIDRun at h
    unfold convertBSSIDLoop
    by_cases ht : i ≤ s.length ∧ k < 6
    · simp only [ht, and_self, if_true] at h ⊢
      by_cases hsep : i = s.length ∨ charAt s i = chr ':'
      · simp only [hsep, if_true] at h ⊢
        by_cases hs : i > start
        · simp only [hs, if_true] at h ⊢
          cases hr : convertBSSIDRun s f (i + 1) (k + 1) (i + 1) with
          | none => rw [hr] at h; simp at h
          | some ws1 =>
            rw [hr] at h
            simp only [Option.map_some', Option.some.injEq] at h
            rw [ih _ _ _ _ hr, h]
        · simp only [hs, if_false] at h ⊢
          exact ih _ _ _ _ h
      · simp only [hsep, if_false] at h ⊢
        exact ih _ _ _ _ h
    · simp only [ht, if_false, Option.some.injEq] at h ⊢
      exact h

/-- The loop test fails after at most `length + 2` evaluations: from a state
with `i <= length + 1`, a bound of `length + 2 - i` evaluations is enough for
the loop to end. -/
theorem convertBSSIDRun_ends (s : Str) : ∀ (fuel i k start : Nat),
    i ≤ s.length + 1 → s.length + 2 ≤ fuel + i →
    (convertBSSIDRun s fuel i k start).isSome = true := by
  intro fuel
  induction fuel with
  | zero => intro i k start h1 h2; omega
  | succ f ih =>
    intro i k start h1 h2
    unfold convertBSSIDRun
    by_cases ht : i ≤ s.length ∧ k < 6
    · simp only [ht, and_self, if_true]
      split_ifs
      · rw [Option.isSome_map']
        exact ih _ _ _ (by omega) (by omega)
      · exact ih _ _ _ (by omega) (by omega)
      · exact ih _ _ _ (by omega) (by omega)
    · simp only [ht, if_false]
      rfl

/-- The conversion loop ends by its own test within `length + 2` evaluations
of it, with the writes of `convertBSSIDWrites`. -/
theorem convertBSSIDRun_eq (s : Str) (fuel : Nat) (h : s.length + 2 ≤ fuel) :
    convertBSSIDRun s fuel 0 0 0 = some (convertBSSIDWrites s) := by
  have hsome := convertBSSIDRun_ends s fuel 0 0 0 (Nat.zero_le _) (by omega)
  cases hr : convertBSSIDRun s fuel 0 0 0 with
  | none => rw [hr] at hsome; simp at hsome
  | some ws =>
    have h1 := convertBSSIDRun_writes s fuel 0 0 0 ws hr
    rw [convertBSSIDLoop_fuel s fuel (by omega)] at h1
    have h2 : convertBSSIDWrites s = groupWrites s [] 0 :=
      convertBSSIDLoop_fuel s (s.length + 1) (le_refl _)
    rw [h2, h1]

/-- C18: `convertBSSIDStringToBytes` never writes outside the six-byte
buffer.  For every input string the write indices are `0, 1, ..` in order and
all below 6; the loop terminates: its test `i <= length && byteIndex < 6`
fails after at most `length + 2` evaluations, and what it has written by then
are the writes of the conversion (a larger bound changes nothing); the number
of bytes written is the minimum of 6 and the number of non-empty
`:`-separated groups; and every cell from that number on is left as it
was. -/
theorem convertBSSID_within_buffer (s : Str) (buf : List (Option Byte)) :
    (∀ wr ∈ convertBSSIDWrites s, wr.1 < 6) ∧
    (convertBSSIDWrites s).map Prod.fst = List.range (convertBSSIDWrites s).length ∧
    (∀ fuel, s.length + 2 ≤ fuel →
      convertBSSIDRun s fuel 0 0 0 = some (convertBSSIDWrites s)) ∧
    (∀ fuel, s.length + 1 ≤ fuel → convertBSSIDLoop s fuel 0 0 0 = convertBSSIDWrites s) ∧
    (convertBSSIDWrites s).length = min 6 (nonEmptyGroups s) ∧
    (∀ j, (convertBSSIDWrites s).length ≤ j →
      (convertBSSIDStringToBytes s buf)[j]? = buf[j]?) := by
  have hw : convertBSSIDWrites s = groupWrites s [] 0 :=
    convertBSSIDLoop_fuel s (s.length + 1) (le_refl _)
  obtain ⟨hlen, hidx⟩ := groupWrites_length s [] 0
  rw [groupCount_nil_left] at hlen
  rw [← hw] at hlen hidx
  have hidx' : (convertBSSIDWrites s).map Prod.fst =
      List.range (convertBSSIDWrites s).length := by
    rw [hidx, List.range_eq_range']
  have hmem : ∀ wr ∈ convertBSSIDWrites s, wr.1 < (convertBSSIDWrites s).length := by
    intro wr hwr
    have : wr.1 ∈ (convertBSSIDWrites s).map Prod.fst := List.mem_map_of_mem _ hwr
    rw [hidx'] at this
    exact List.mem_range.1 this
  refine ⟨?_, hidx', ?_, ?_, hlen, ?_⟩
  · intro wr hwr
    have := hmem wr hwr
    rw [hlen] at this
    omega
  · intro fuel hf
    exact convertBSSIDRun_eq s fuel hf
  · intro fuel hf
    rw [hw, convertBSSIDLoop_fuel s fuel hf]
  · intro j hj
    unfold convertBSSIDStringToBytes
    apply foldl_set_getElem?_of_ne
    intro wr hwr
    have := hmem wr hwr
    omega

/-- The conversion on irregular inputs: empty groups are skipped, a string
with eight groups yields six writes, the empty string yields none; on a
string of five characters the loop ends at the seventh evaluation of its test
and not before. -/
theorem convertBSSID_examples :
    nonEmptyGroups (lit "AA::bb:") = 2 ∧
    convertBSSIDStringToBytes (lit "AA::bb:") (List.replicate 6 none) =
      [some 0xAA, some 0xBB, none, none, none, none] ∧
    nonEmptyGroups (lit "1:2:3:4:5:6:7:8") = 8 ∧
    (convertBSSIDWrites (lit "1:2:3:4:5:6:7:8")).length = 6 ∧
    convertBSSIDWrites [] = [] ∧
    convertBSSIDRun (lit "AA:bb") 7 0 0 0 = some [(0, 0xAA), (1, 0xBB)] ∧
    convertBSSIDRun (lit "AA:bb") 6 0 0 0 = none := by
  decide

end HumidityDetector
